import Mathlib

/-!
Verification of the magistrala Python SDK against its natural-language
specification.  The Python modules under `src/` are shallowly embedded:

* Python `bytes` values are `List Nat` with every element `< 256`;
* Python strings are Lean `String`; `str.encode('utf-8')` / `bytes.decode('utf-8')`
  are embedded by an explicit UTF-8 codec (`utf8Encode` / `utf8Decode`);
* JSON values (`json.loads` / `json.dumps` and parsed response bodies) are the
  inductive type `Json`;
* the AES-256 block cipher used through the external `cryptography` package is
  implemented in full (FIPS 197), and CFB mode (`modes.CFB`, 128-bit feedback)
  on top of it;
* each SDK operation is a function from its arguments and an abstract HTTP
  transport to a `Run`: the post-state of the client object, the list of HTTP
  requests issued, and the outcome (a returned value or a raised exception).
-/

/-- Embedding of a parsed JSON value (the result of Python's `json.loads` and
the shape of parsed HTTP response bodies).  JSON numbers are modelled as
integers; floating-point literals are outside the scope of this development. -/
inductive Json where
  | null : Json
  | bool (b : Bool) : Json
  | num (n : Int) : Json
  | str (s : String) : Json
  | arr (xs : List Json) : Json
  | obj (kvs : List (String × Json)) : Json

/-- Bytewise xor of two byte strings, as performed blockwise by the CFB mode of
the `cryptography` package; the result is truncated to the shorter operand. -/
def xorBytes (a b : List Nat) : List Nat :=
  List.zipWith (fun x y => x ^^^ y) a b

/-- Lowercase hexadecimal digit for a value below 16, as produced by Python's
`bytes.hex()`. -/
def hexDigit (n : Nat) : Char :=
  if n < 10 then Char.ofNat (48 + n) else Char.ofNat (87 + n)

/-- Embedding of Python `bytes.hex()`: each byte becomes two lowercase hex
digits. -/
def bytesHex (bs : List Nat) : String :=
  ⟨bs.flatMap (fun b => [hexDigit (b / 16), hexDigit (b % 16)])⟩

/-- Value of a single hexadecimal digit character (either case), `none` for a
non-hex character. -/
def hexVal (c : Char) : Option Nat :=
  if 48 ≤ c.toNat ∧ c.toNat ≤ 57 then some (c.toNat - 48)
  else if 97 ≤ c.toNat ∧ c.toNat ≤ 102 then some (c.toNat - 87)
  else if 65 ≤ c.toNat ∧ c.toNat ≤ 70 then some (c.toNat - 55)
  else none

/-- Embedding of Python `bytes.fromhex` on a character list: pairs of hex
digits, with ASCII spaces permitted between the pairs; an odd trailing digit or
a non-hex character fails (Python raises `ValueError`, here `none`). -/
def fromhexChars : List Char → Option (List Nat)
  | [] => some []
  | c :: rest =>
      if c = ' ' then fromhexChars rest
      else
        match rest with
        | [] => none
        | c2 :: rest' =>
            match hexVal c, hexVal c2 with
            | some h, some l => (fromhexChars rest').map (fun bs => (16 * h + l) :: bs)
            | _, _ => none

/-- Embedding of Python `bytes.fromhex`. -/
def bytesFromhex (s : String) : Option (List Nat) :=
  fromhexChars s.data

/-- UTF-8 encoding of a single Unicode scalar value, by the byte layout of RFC
3629 stated with division and remainder; embeds the per-character behaviour of
Python's `str.encode('utf-8')`. -/
def utf8EncodeCharNat (n : Nat) : List Nat :=
  if n < 0x80 then [n]
  else if n < 0x800 then [0xC0 + n / 0x40, 0x80 + n % 0x40]
  else if n < 0x10000 then [0xE0 + n / 0x1000, 0x80 + n / 0x40 % 0x40, 0x80 + n % 0x40]
  else [0xF0 + n / 0x40000, 0x80 + n / 0x1000 % 0x40, 0x80 + n / 0x40 % 0x40, 0x80 + n % 0x40]

/-- Embedding of Python `str.encode('utf-8')`. -/
def utf8Encode (s : String) : List Nat :=
  s.data.flatMap (fun c => utf8EncodeCharNat c.toNat)

/-- Strict UTF-8 decoding of a byte string into characters, rejecting overlong
forms, surrogates, out-of-range scalars and truncated sequences; embeds
Python's `bytes.decode('utf-8')`, with `none` for `UnicodeDecodeError`. -/
def utf8DecodeAux : Nat → List Nat → Option (List Char)
  | _, [] => some []
  | 0, _ :: _ => none
  | fuel + 1, b :: rest =>
      if b < 0x80 then (utf8DecodeAux fuel rest).map (fun cs => Char.ofNat b :: cs)
      else if b < 0xC2 then none
      else if b < 0xE0 then
        let b2 := rest.getD 0 0
        if 0x80 ≤ b2 ∧ b2 < 0xC0 then
          (utf8DecodeAux fuel (rest.drop 1)).map
            (fun cs => Char.ofNat ((b - 0xC0) * 0x40 + (b2 - 0x80)) :: cs)
        else none
      else if b < 0xF0 then
        let b2 := rest.getD 0 0
        let b3 := rest.getD 1 0
        if 0x80 ≤ b2 ∧ b2 < 0xC0 ∧ 0x80 ≤ b3 ∧ b3 < 0xC0 then
          let n := (b - 0xE0) * 0x1000 + (b2 - 0x80) * 0x40 + (b3 - 0x80)
          if n < 0x800 ∨ (0xD800 ≤ n ∧ n < 0xE000) then none
          else (utf8DecodeAux fuel (rest.drop 2)).map (fun cs => Char.ofNat n :: cs)
        else none
      else if b < 0xF5 then
        let b2 := rest.getD 0 0
        let b3 := rest.getD 1 0
        let b4 := rest.getD 2 0
        if 0x80 ≤ b2 ∧ b2 < 0xC0 ∧ 0x80 ≤ b3 ∧ b3 < 0xC0 ∧ 0x80 ≤ b4 ∧ b4 < 0xC0 then
          let n := (b - 0xF0) * 0x40000 + (b2 - 0x80) * 0x1000
                     + (b3 - 0x80) * 0x40 + (b4 - 0x80)
          if n < 0x10000 ∨ 0x110000 ≤ n then none
          else (utf8DecodeAux fuel (rest.drop 3)).map (fun cs => Char.ofNat n :: cs)
        else none
      else none

/-- Strict UTF-8 decoding of a byte string: each decoding step consumes at
least one byte and one unit of fuel, so fuel equal to the byte count never runs
out. -/
def utf8DecodeChars (bs : List Nat) : Option (List Char) :=
  utf8DecodeAux bs.length bs

/-- Embedding of Python `bytes.decode('utf-8')`. -/
def utf8Decode (bs : List Nat) : Option String :=
  (utf8DecodeChars bs).map (fun cs => ⟨cs⟩)

/-- The AES S-box (FIPS 197, figure 7), the substitution table of the block
cipher that the `cryptography` package's `algorithms.AES` implements. -/
def sbox : List Nat := [
  99, 124, 119, 123, 242, 107, 111, 197, 48, 1, 103, 43, 254, 215, 171, 118,
  202, 130, 201, 125, 250, 89, 71, 240, 173, 212, 162, 175, 156, 164, 114, 192,
  183, 253, 147, 38, 54, 63, 247, 204, 52, 165, 229, 241, 113, 216, 49, 21,
  4, 199, 35, 195, 24, 150, 5, 154, 7, 18, 128, 226, 235, 39, 178, 117,
  9, 131, 44, 26, 27, 110, 90, 160, 82, 59, 214, 179, 41, 227, 47, 132,
  83, 209, 0, 237, 32, 252, 177, 91, 106, 203, 190, 57, 74, 76, 88, 207,
  208, 239, 170, 251, 67, 77, 51, 133, 69, 249, 2, 127, 80, 60, 159, 168,
  81, 163, 64, 143, 146, 157, 56, 245, 188, 182, 218, 33, 16, 255, 243, 210,
  205, 12, 19, 236, 95, 151, 68, 23, 196, 167, 126, 61, 100, 93, 25, 115,
  96, 129, 79, 220, 34, 42, 144, 136, 70, 238, 184, 20, 222, 94, 11, 219,
  224, 50, 58, 10, 73, 6, 36, 92, 194, 211, 172, 98, 145, 149, 228, 121,
  231, 200, 55, 109, 141, 213, 78, 169, 108, 86, 244, 234, 101, 122, 174, 8,
  186, 120, 37, 46, 28, 166, 180, 198, 232, 221, 116, 31, 75, 189, 139, 138,
  112, 62, 181, 102, 72, 3, 246, 14, 97, 53, 87, 185, 134, 193, 29, 158,
  225, 248, 152, 17, 105, 217, 142, 148, 155, 30, 135, 233, 206, 85, 40, 223,
  140, 161, 137, 13, 191, 230, 66, 104, 65, 153, 45, 15, 176, 84, 187, 22]

/-- S-box substitution of a single byte. -/
def sbByte (b : Nat) : Nat := sbox.getD b 0

/-- Multiplication by x in GF(2^8) with the AES reduction polynomial. -/
def xtime (b : Nat) : Nat := if b < 0x80 then 2 * b else (2 * b - 0x100) ^^^ 0x1B

/-- SubBytes step of AES (FIPS 197, section 5.1.1). -/
def subBytes (s : List Nat) : List Nat := s.map sbByte

/-- ShiftRows step of AES on the column-major 16-byte state (FIPS 197,
section 5.1.2). -/
def shiftRows (s : List Nat) : List Nat :=
  [s.getD 0 0, s.getD 5 0, s.getD 10 0, s.getD 15 0,
   s.getD 4 0, s.getD 9 0, s.getD 14 0, s.getD 3 0,
   s.getD 8 0, s.getD 13 0, s.getD 2 0, s.getD 7 0,
   s.getD 12 0, s.getD 1 0, s.getD 6 0, s.getD 11 0]

/-- MixColumns on a single column (FIPS 197, section 5.1.3). -/
def mixCol (a0 a1 a2 a3 : Nat) : List Nat :=
  [xtime a0 ^^^ (xtime a1 ^^^ a1) ^^^ a2 ^^^ a3,
   a0 ^^^ xtime a1 ^^^ (xtime a2 ^^^ a2) ^^^ a3,
   a0 ^^^ a1 ^^^ xtime a2 ^^^ (xtime a3 ^^^ a3),
   (xtime a0 ^^^ a0) ^^^ a1 ^^^ a2 ^^^ xtime a3]

/-- MixColumns step of AES on the 16-byte state. -/
def mixColumns (s : List Nat) : List Nat :=
  mixCol (s.getD 0 0) (s.getD 1 0) (s.getD 2 0) (s.getD 3 0)
    ++ mixCol (s.getD 4 0) (s.getD 5 0) (s.getD 6 0) (s.getD 7 0)
    ++ mixCol (s.getD 8 0) (s.getD 9 0) (s.getD 10 0) (s.getD 11 0)
    ++ mixCol (s.getD 12 0) (s.getD 13 0) (s.getD 14 0) (s.getD 15 0)

/-- AddRoundKey step of AES. -/
def addRoundKey (s rk : List Nat) : List Nat := xorBytes s rk

/-- SubWord of the AES key schedule. -/
def subWord (w : List Nat) : List Nat := w.map sbByte

/-- RotWord of the AES key schedule. -/
def rotWord (w : List Nat) : List Nat := w.drop 1 ++ w.take 1

/-- Round constants of the AES key schedule (first bytes of Rcon). -/
def rcon : List Nat := [1, 2, 4, 8, 16, 32, 64]

/-- One step of the AES-256 key expansion: given the words produced so far
(at least the eight words of the key), append the next word (FIPS 197,
section 5.2). -/
def keyExpandStep (w : List (List Nat)) : List (List Nat) :=
  let i := w.length
  let prev := w.getD (i - 1) []
  let temp :=
    if i % 8 = 0 then xorBytes (subWord (rotWord prev)) [rcon.getD (i / 8 - 1) 0, 0, 0, 0]
    else if i % 8 = 4 then subWord prev
    else prev
  w ++ [xorBytes (w.getD (i - 8) []) temp]

/-- Iterate the key-expansion step. -/
def keyExpandIter : Nat → List (List Nat) → List (List Nat)
  | 0, w => w
  | k + 1, w => keyExpandIter k (keyExpandStep w)

/-- AES-256 key expansion: the 32-byte key as eight 4-byte words, extended to
60 words. -/
def keyExpansion (key : List Nat) : List (List Nat) :=
  keyExpandIter 52 ((List.range 8).map (fun i => (key.drop (4 * i)).take 4))

/-- Round key `r` of the expanded key: words `4r` to `4r+3`, flattened. -/
def roundKey (w : List (List Nat)) (r : Nat) : List Nat :=
  ((w.drop (4 * r)).take 4).flatten

/-- AES-256 block encryption (FIPS 197, section 5.1): 14 rounds over a 16-byte
block.  Validated against the FIPS 197 appendix C.3 test vector. -/
def aes256EncryptBlock (key block : List Nat) : List Nat :=
  let w := keyExpansion key
  let s0 := addRoundKey block (roundKey w 0)
  let s13 := (List.range 13).foldl
    (fun s r => addRoundKey (mixColumns (shiftRows (subBytes s))) (roundKey w (r + 1))) s0
  addRoundKey (shiftRows (subBytes s13)) (roundKey w 14)

/-- Well-formed word list of the AES key schedule: every word is four bytes. -/
def WordsWF (w : List (List Nat)) : Prop :=
  ∀ u ∈ w, u.length = 4 ∧ ∀ b ∈ u, b < 256

/-- CFB mode encryption with 128-bit feedback over a block-encryption function
`E`, as implemented by `modes.CFB` of the `cryptography` package: each 16-byte
keystream block is `E` of the previous ciphertext block (initially the IV), a
trailing partial block is xored with a truncated keystream block. -/
def cfbEncrypt (E : List Nat → List Nat) (reg : List Nat) (pt : List Nat) : List Nat :=
  if h : pt = [] then []
  else
    let c := xorBytes (pt.take 16) (E reg)
    c ++ cfbEncrypt E c (pt.drop 16)
termination_by pt.length
decreasing_by
  have := List.length_pos.mpr h
  simp [List.length_drop]
  omega

/-- CFB mode decryption with 128-bit feedback over the block-encryption
function `E` (CFB decryption also uses the forward direction of the block
cipher). -/
def cfbDecrypt (E : List Nat → List Nat) (reg : List Nat) (ct : List Nat) : List Nat :=
  if h : ct = [] then []
  else
    let cblk := ct.take 16
    let p := xorBytes cblk (E reg)
    p ++ cfbDecrypt E cblk (ct.drop 16)
termination_by ct.length
decreasing_by
  have := List.length_pos.mpr h
  simp [List.length_drop]
  omega

/-- A block-encryption function is well formed when it takes any 16-byte block
of bytes to a 16-byte block of bytes. -/
def BlockE (E : List Nat → List Nat) : Prop :=
  ∀ x, x.length = 16 → (∀ b ∈ x, b < 256) → (E x).length = 16 ∧ ∀ b ∈ E x, b < 256

/-- Exception raised by the HTTP transport layer (the `requests` package's
`RequestException` family), carrying its message. -/
inductive TransportExn where
  | timeout (msg : String)
  | connectionError (msg : String)
  | dnsFailure (msg : String)
deriving DecidableEq

/-- Embedding of the `Error` dataclass of `src/errors.py`: the uniform SDK
error with an HTTP status, the server-supplied message (`None` when the body
has no `message` field) and an optional detail. -/
structure Error where
  status : Nat
  error : Option Json
  detail : Option Json

/-- Embedding of `Errors.handle_error` of `src/errors.py`: builds the uniform
`Error` value from a message, a status code and an optional detail. -/
def Errors.handle_error (error : Option Json) (status_code : Nat)
    (error_detail : Option Json) : Error :=
  { status := status_code, error := error, detail := error_detail }

/-- A Python exception as observable from an SDK call. -/
inductive PyErr where
  | sdk (e : Error)
  | transport (e : TransportExn)
  | attributeError (msg : String)
  | valueError (msg : String)
  | typeError (msg : String)
  | unicodeDecodeError (msg : String)
  | jsonDecodeError (msg : String)

/-- Outcome of a Python call: a returned value or a raised exception. -/
inductive POut (α : Type) where
  | ok (a : α)
  | raise (e : PyErr)

/-- JSON whitespace characters. -/
def jsonWS (c : Char) : Bool :=
  c = ' ' || c = '\t' || c = '\n' || c = '\r'

/-- Skip leading JSON whitespace. -/
def skipWS : List Char → List Char
  | [] => []
  | c :: rest => if jsonWS c then skipWS rest else c :: rest

/-- Scan the remainder of a JSON string literal (after the opening quote),
handling the single-character escapes; `\u` escapes and unescaped control
characters are rejected. -/
def parseJStringChars : List Char → Option (List Char × List Char)
  | [] => none
  | c :: rest =>
      if c = '"' then some ([], rest)
      else if c = '\\' then
        match rest with
        | [] => none
        | e :: rest' =>
            let m : Option Char :=
              if e = '"' then some '"'
              else if e = '\\' then some '\\'
              else if e = '/' then some '/'
              else if e = 'n' then some '\n'
              else if e = 't' then some '\t'
              else if e = 'r' then some '\r'
              else if e = 'b' then some (Char.ofNat 8)
              else if e = 'f' then some (Char.ofNat 12)
              else none
            match m with
            | some ch => (parseJStringChars rest').map (fun p => (ch :: p.1, p.2))
            | none => none
      else if c.toNat < 0x20 then none
      else (parseJStringChars rest).map (fun p => (c :: p.1, p.2))

/-- Numeric value of a digit string. -/
def digitsToNat (ds : List Char) : Nat :=
  ds.foldl (fun acc c => 10 * acc + (c.toNat - 48)) 0

/-- Parse a JSON integer literal.  A fractional part or exponent makes the
parse fail: JSON floating-point numbers are outside the scope of this
development. -/
def parseNumber (cs : List Char) : Option (Json × List Char) :=
  let sgn : Bool × List Char :=
    match cs with
    | '-' :: rest => (true, rest)
    | _ => (false, cs)
  let p := sgn.2.span (fun c => c.isDigit)
  match p.1 with
  | [] => none
  | _ :: _ =>
      let v : Json := .num (if sgn.1 then -(digitsToNat p.1 : Int) else (digitsToNat p.1 : Int))
      match p.2 with
      | [] => some (v, [])
      | c :: _ => if c = '.' ∨ c = 'e' ∨ c = 'E' then none else some (v, p.2)

mutual

/-- Recursive-descent parser for a JSON value, fuelled; models Python's
`json.loads` grammar (restricted to integer numerals and to string escapes
without `\u`). -/
def parseValue : Nat → List Char → Option (Json × List Char)
  | 0, _ => none
  | fuel + 1, cs =>
      match skipWS cs with
      | [] => none
      | c :: rest =>
          if c = 'n' then
            match rest with
            | 'u' :: 'l' :: 'l' :: r => some (.null, r)
            | _ => none
          else if c = 't' then
            match rest with
            | 'r' :: 'u' :: 'e' :: r => some (.bool true, r)
            | _ => none
          else if c = 'f' then
            match rest with
            | 'a' :: 'l' :: 's' :: 'e' :: r => some (.bool false, r)
            | _ => none
          else if c = '"' then
            (parseJStringChars rest).map (fun p => (.str ⟨p.1⟩, p.2))
          else if c = '-' ∨ c.isDigit then parseNumber (c :: rest)
          else if c = '[' then
            match skipWS rest with
            | ']' :: r => some (.arr [], r)
            | _ => (parseArrayItems fuel rest).map (fun p => (.arr p.1, p.2))
          else if c = '{' then
            match skipWS rest with
            | '}' :: r => some (.obj [], r)
            | _ => (parseObjItems fuel rest).map (fun p => (.obj p.1, p.2))
          else none

/-- Parse the comma-separated items of a JSON array, up to the closing
bracket. -/
def parseArrayItems : Nat → List Char → Option (List Json × List Char)
  | 0, _ => none
  | fuel + 1, cs =>
      match parseValue fuel cs with
      | none => none
      | some (v, rest) =>
          match skipWS rest with
          | ',' :: r => (parseArrayItems fuel r).map (fun p => (v :: p.1, p.2))
          | ']' :: r => some ([v], r)
          | _ => none

/-- Parse the comma-separated members of a JSON object, up to the closing
brace. -/
def parseObjItems : Nat → List Char → Option (List (String × Json) × List Char)
  | 0, _ => none
  | fuel + 1, cs =>
      match skipWS cs with
      | '"' :: rest =>
          match parseJStringChars rest with
          | none => none
          | some (kcs, rest') =>
              match skipWS rest' with
              | ':' :: r2 =>
                  match parseValue fuel r2 with
                  | none => none
                  | some (v, r3) =>
                      match skipWS r3 with
                      | ',' :: r4 => (parseObjItems fuel r4).map
                          (fun p => ((⟨kcs⟩, v) :: p.1, p.2))
                      | '}' :: r4 => some ([(⟨kcs⟩, v)], r4)
                      | _ => none
              | _ => none
      | _ => none

end

/-- Embedding of Python `json.loads`: parse one JSON value, require only
whitespace after it, raise `json.JSONDecodeError` otherwise.  The fuel bound
`2 * length + 2` dominates the recursion depth, every level of which consumes
input. -/
def pyJsonLoads (s : String) : POut Json :=
  match parseValue (2 * s.data.length + 2) s.data with
  | some (v, rest) =>
      if skipWS rest = [] then .ok v
      else .raise (.jsonDecodeError "Extra data")
  | none => .raise (.jsonDecodeError "Expecting value")

namespace Bootstrap

/-- The cipher key used in `Bootstrap.bootstrap_encrypt` and
`Bootstrap.bootstrap_decrypt` of `src/bootstrap.py`: the expression
`crypto_key.encode()[:32].ljust(32, b'\0')`, the UTF-8 encoding of the caller's
key truncated to 32 bytes and right-padded with zero bytes to 32 bytes. -/
def cipherKey (crypto_key : String) : List Nat :=
  let k := (utf8Encode crypto_key).take 32
  k ++ List.replicate (32 - k.length) 0

/-- Embedding of `Bootstrap.bootstrap_encrypt` of `src/bootstrap.py`: AES-256
in CFB mode under the derived key, with the ciphertext prefixed by the IV and
the whole hex-encoded.  The 16-byte IV, freshly drawn from `os.urandom(16)` in
the source, is an explicit argument here since the embedding is
deterministic. -/
def bootstrap_encrypt (iv : List Nat) (text crypto_key : String) : String :=
  bytesHex (iv ++ cfbEncrypt (aes256EncryptBlock (cipherKey crypto_key)) iv (utf8Encode text))

/-- Embedding of `Bootstrap.bootstrap_decrypt` of `src/bootstrap.py`: hex
decoding (`bytes.fromhex`), split at byte offset 16 into IV and ciphertext,
CFB decryption under the same derived key, UTF-8 decoding, and `json.loads` of
the resulting text. -/
def bootstrap_decrypt (encrypted_data crypto_key : String) : POut Json :=
  match bytesFromhex encrypted_data with
  | none => .raise (.valueError "non-hexadecimal number found in fromhex arg")
  | some buf =>
      let iv := buf.take 16
      let ct := buf.drop 16
      match utf8Decode (cfbDecrypt (aes256EncryptBlock (cipherKey crypto_key)) iv ct) with
      | none => .raise (.unicodeDecodeError "invalid utf-8 in decrypted data")
      | some text => pyJsonLoads text

end Bootstrap

/-- An HTTP request as issued by the SDK through the `requests` package:
method, full URL, headers, optional body text, and timeout in seconds. -/
structure HttpRequest where
  method : String
  url : String
  headers : List (String × String)
  body : Option String
  timeout : Nat
deriving DecidableEq

/-- An HTTP response as seen by the SDK; the body is the parsed JSON value
(this embedding models responses whose body `response.json()` parses). -/
structure HttpResponse where
  status : Nat
  body : Json

/-- Result of handing a request to the transport layer: a response, or a
raised `requests.RequestException`. -/
inductive TransportResult where
  | ok (r : HttpResponse)
  | exn (e : TransportExn)

/-- The abstract HTTP transport an SDK operation runs against. -/
def Transport : Type := HttpRequest → TransportResult

/-- Embedding of `requests.Response.ok`: true unless `raise_for_status` would
raise, which it does exactly for client errors (4xx) and server errors
(5xx). -/
def responseOk (status : Nat) : Bool :=
  ! (decide (400 ≤ status) && decide (status < 600))

/-- Result of one SDK operation: the post-state of the client object, the HTTP
requests issued during the call, and the outcome. -/
structure Run (σ α : Type) where
  post : σ
  reqs : List HttpRequest
  out : POut α

/-- First-match lookup in a JSON object's field list (Python dict keys are
unique, so first match is the dict entry). -/
def lookupField : List (String × Json) → String → Option Json
  | [], _ => none
  | (k', v) :: rest, k => if k' = k then some v else lookupField rest k

/-- Embedding of `error_res.get(key)` on a parsed JSON body: dictionary lookup
returning `None` for a missing key, `AttributeError` when the body is not a
JSON object (Python lists and scalars have no `get` method). -/
def pyGet (j : Json) (k : String) : POut (Option Json) :=
  match j with
  | .obj kvs => .ok (lookupField kvs k)
  | _ => .raise (.attributeError "object has no attribute get")

/-- Embedding of constructing a dataclass from keyword arguments,
`Cls(**response.json())`: requires the body to be a mapping whose keys are all
declared fields and which contains every required field; the result is the
field mapping itself.  Raises `TypeError` otherwise, as Python does. -/
def pyKwargs (required allowed : List String) (j : Json) : POut (List (String × Json)) :=
  match j with
  | .obj kvs =>
      if kvs.all (fun kv => allowed.contains kv.1)
          && required.all (fun k => (lookupField kvs k).isSome) then
        .ok kvs
      else .raise (.typeError "unexpected or missing keyword argument")
  | _ => .raise (.typeError "argument after ** must be a mapping")

/-- Declared fields of the `Client` dataclass of `src/defs.py` (including the
inherited `ClientBasicInfo` fields). -/
def clientFieldNames : List String :=
  ["id", "name", "credentials", "status", "tags", "domain_id", "parent_group_id",
   "metadata", "created_at", "updated_at", "updated_by", "identity",
   "parent_group_path", "role_id", "role_name", "actions", "access_type",
   "access_provider_id", "access_provider_role_id", "access_provider_role_name",
   "access_provider_role_actions", "connection_types", "member_id", "roles"]

/-- Declared fields of the `Role` dataclass of `src/defs.py`. -/
def roleFieldNames : List String :=
  ["id", "name", "entity_id", "created_by", "created_at", "updated_at", "updated_by"]

/-- Declared fields of the `HealthInfo` dataclass of `src/defs.py`; all are
required. -/
def healthInfoFieldNames : List String :=
  ["status", "version", "commit", "description", "build_time", "instance_id"]

/-- Embedding of the `Response` dataclass of `src/defs.py`. -/
structure Response where
  status : Nat
  message : Option String
deriving DecidableEq

/-- Four lowercase hex digits, for `\uXXXX` escapes of `json.dumps`. -/
def hex4 (n : Nat) : String :=
  ⟨[hexDigit (n / 4096 % 16), hexDigit (n / 256 % 16), hexDigit (n / 16 % 16),
    hexDigit (n % 16)]⟩

/-- JSON string escaping of one character as performed by `json.dumps` with
its default `ensure_ascii=True`. -/
def dumpJChar (c : Char) : String :=
  if c = '"' then "\\\""
  else if c = '\\' then "\\\\"
  else if c = '\n' then "\\n"
  else if c = '\t' then "\\t"
  else if c = '\r' then "\\r"
  else if c.toNat = 8 then "\\b"
  else if c.toNat = 12 then "\\f"
  else if c.toNat < 0x20 then "\\u" ++ hex4 c.toNat
  else if c.toNat < 0x80 then ⟨[c]⟩
  else if c.toNat < 0x10000 then "\\u" ++ hex4 c.toNat
  else "\\u" ++ hex4 (0xD800 + (c.toNat - 0x10000) / 0x400)
    ++ "\\u" ++ hex4 (0xDC00 + (c.toNat - 0x10000) % 0x400)

/-- JSON string literal as produced by `json.dumps`. -/
def dumpJString (s : String) : String :=
  "\"" ++ String.join (s.data.map dumpJChar) ++ "\""

mutual

/-- Embedding of Python `json.dumps` with its default separators
`(', ', ': ')` and `ensure_ascii=True`. -/
def jsonDumps : Json → String
  | .null => "null"
  | .bool b => if b then "true" else "false"
  | .num n => toString n
  | .str s => dumpJString s
  | .arr xs => "[" ++ jsonDumpsList xs ++ "]"
  | .obj kvs => "\x7b" ++ jsonDumpsObj kvs ++ "\x7d"

/-- Comma-separated dump of array elements. -/
def jsonDumpsList : List Json → String
  | [] => ""
  | [x] => jsonDumps x
  | x :: xs => jsonDumps x ++ ", " ++ jsonDumpsList xs

/-- Comma-separated dump of object members. -/
def jsonDumpsObj : List (String × Json) → String
  | [] => ""
  | [(k, v)] => dumpJString k ++ ": " ++ jsonDumps v
  | (k, v) :: kvs => dumpJString k ++ ": " ++ jsonDumps v ++ ", " ++ jsonDumpsObj kvs

end

/-- Embedding of Python `str.rstrip('/')`: remove all trailing slashes. -/
def rstripSlashes (s : String) : String :=
  ⟨(s.data.reverse.dropWhile (fun c => c = '/')).reverse⟩

/-- Modelled from `urllib.parse.urljoin`, restricted to the call pattern used
throughout this SDK: the base ends with `/` and the second argument is a
relative reference (no scheme, no authority, no leading slash, no dot
segments), in which case `urljoin` appends it to the base.  Scheme-qualified
or absolute second arguments and dot-segment normalization are not modelled;
no claim depends on them. -/
def urljoin (base rel : String) : String := base ++ rel

/-- Trace of a stateless helper call: the requests issued and the outcome. -/
abbrev Trace (α : Type) := List HttpRequest × POut α

/-- Embedding of `dict.get(key, default)` on a parsed JSON body. -/
def pyGetD (j : Json) (k : String) (d : Json) : POut Json :=
  match j with
  | .obj kvs => .ok ((lookupField kvs k).getD d)
  | _ => .raise (.attributeError "object has no attribute get")

/-- JSON value of an optional string, `None` becoming `null`. -/
def optStr : Option String → Json
  | none => .null
  | some s => .str s

/-- JSON value of an optional list of strings, `None` becoming `null`. -/
def optStrList : Option (List String) → Json
  | none => .null
  | some l => .arr (l.map .str)

/-- JSON value of an optional integer, `None` becoming `null`. -/
def optInt : Option Int → Json
  | none => .null
  | some n => .num n

namespace Roles

/-- The `content_type` attribute set by `Roles.__init__` of `src/roles.py`. -/
def content_type : String := "application/json"

/-- Embedding of `Roles.list_available_actions` of `src/roles.py`. -/
def list_available_actions (url endpoint token : String) (t : Transport) : Trace Json :=
  let headers := [("Content-Type", content_type), ("Authorization", "Bearer " ++ token)]
  let full_url := urljoin (url ++ "/") (endpoint ++ "/roles/available-actions")
  let r : HttpRequest :=
    { method := "GET", url := full_url, headers := headers, body := none, timeout := 30 }
  ([r],
    match t r with
    | .exn e => .raise (.transport e)
    | .ok resp =>
        if responseOk resp.status then
          match pyGetD resp.body "available_actions" (.arr []) with
          | .ok v => .ok v
          | .raise e => .raise e
        else
          match pyGet resp.body "message" with
          | .ok msg => .raise (.sdk (Errors.handle_error msg resp.status none))
          | .raise e => .raise e)

/-- Embedding of `Roles.create_role` of `src/roles.py`. -/
def create_role (url endpoint entity_id role_name token : String)
    (optional_actions optional_members : Option (List String)) (t : Transport) :
    Trace (List (String × Json)) :=
  let headers := [("Content-Type", content_type), ("Authorization", "Bearer " ++ token)]
  let payload : Json := .obj [("role_name", .str role_name),
    ("optional_actions", optStrList optional_actions),
    ("optional_members", optStrList optional_members)]
  let full_url := urljoin (url ++ "/") (endpoint ++ "/" ++ entity_id ++ "/roles")
  let r : HttpRequest :=
    { method := "POST", url := full_url, headers := headers,
      body := some (jsonDumps payload), timeout := 30 }
  ([r],
    match t r with
    | .exn e => .raise (.transport e)
    | .ok resp =>
        if responseOk resp.status then
          match pyKwargs [] roleFieldNames resp.body with
          | .ok fields => .ok fields
          | .raise e => .raise e
        else
          match pyGet resp.body "message" with
          | .ok msg => .raise (.sdk (Errors.handle_error msg resp.status none))
          | .raise e => .raise e)

/-- Embedding of `Roles.view_role` of `src/roles.py`. -/
def view_role (url endpoint entity_id role_id token : String) (t : Transport) :
    Trace (List (String × Json)) :=
  let headers := [("Content-Type", content_type), ("Authorization", "Bearer " ++ token)]
  let full_url := urljoin (url ++ "/") (endpoint ++ "/" ++ entity_id ++ "/roles/" ++ role_id)
  let r : HttpRequest :=
    { method := "GET", url := full_url, headers := headers, body := none, timeout := 30 }
  ([r],
    match t r with
    | .exn e => .raise (.transport e)
    | .ok resp =>
        if responseOk resp.status then
          match pyKwargs [] roleFieldNames resp.body with
          | .ok fields => .ok fields
          | .raise e => .raise e
        else
          match pyGet resp.body "message" with
          | .ok msg => .raise (.sdk (Errors.handle_error msg resp.status none))
          | .raise e => .raise e)

/-- Embedding of `Roles.delete_role` of `src/roles.py`. -/
def delete_role (url endpoint entity_id role_id token : String) (t : Transport) :
    Trace Response :=
  let headers := [("Content-Type", content_type), ("Authorization", "Bearer " ++ token)]
  let full_url := urljoin (url ++ "/") (endpoint ++ "/" ++ entity_id ++ "/roles/" ++ role_id)
  let r : HttpRequest :=
    { method := "DELETE", url := full_url, headers := headers, body := none, timeout := 30 }
  ([r],
    match t r with
    | .exn e => .raise (.transport e)
    | .ok resp =>
        if responseOk resp.status then
          .ok { status := resp.status, message := some "Role deleted successfully" }
        else
          match pyGet resp.body "message" with
          | .ok msg => .raise (.sdk (Errors.handle_error msg resp.status none))
          | .raise e => .raise e)

end Roles

/-- State of a `Clients` API client (`Clients.__init__` of `src/clients.py`). -/
structure ClientsSt where
  clients_url : String
  content_type : String
  clients_endpoint : String
deriving DecidableEq

namespace Clients

/-- Embedding of `Clients.__init__` of `src/clients.py`. -/
def init (clients_url : String) : ClientsSt :=
  { clients_url := rstripSlashes clients_url,
    content_type := "application/json",
    clients_endpoint := "clients" }

/-- Embedding of `Clients.create_client` of `src/clients.py`.  The `client`
payload is modelled as the JSON mapping the caller passes: the declared
`Client` dataclass has no `dict()` method, so the `client.dict() if
hasattr(client, 'dict') else client` expression serializes the argument
itself, which `json.dumps` accepts only for plain mappings. -/
def create_client (st : ClientsSt) (client : Json) (domain_id token : String)
    (t : Transport) : Run ClientsSt (List (String × Json)) :=
  let headers := [("Content-Type", st.content_type), ("Authorization", "Bearer " ++ token)]
  let url := urljoin (st.clients_url ++ "/") (domain_id ++ "/" ++ st.clients_endpoint)
  let r : HttpRequest :=
    { method := "POST", url := url, headers := headers,
      body := some (jsonDumps client), timeout := 30 }
  { post := st, reqs := [r],
    out :=
      match t r with
      | .exn e => .raise (.transport e)
      | .ok resp =>
          if responseOk resp.status then
            match pyKwargs [] clientFieldNames resp.body with
            | .ok fields => .ok fields
            | .raise e => .raise e
          else
            match pyGet resp.body "message" with
            | .ok msg => .raise (.sdk (Errors.handle_error msg resp.status none))
            | .raise e => .raise e }

/-- Embedding of `Clients.list_client_actions` of `src/clients.py`: delegates
to `Roles.list_available_actions` and re-raises any exception unchanged. -/
def list_client_actions (st : ClientsSt) (domain_id token : String) (t : Transport) :
    Run ClientsSt Json :=
  let tr := Roles.list_available_actions st.clients_url
    (domain_id ++ "/" ++ st.clients_endpoint) token t
  { post := st, reqs := tr.1, out := tr.2 }

/-- Embedding of `Clients.create_client_role` of `src/clients.py`: delegates
to `Roles.create_role` and re-raises any exception unchanged. -/
def create_client_role (st : ClientsSt) (client_id role_name domain_id token : String)
    (optional_actions optional_members : Option (List String)) (t : Transport) :
    Run ClientsSt (List (String × Json)) :=
  let tr := Roles.create_role st.clients_url (domain_id ++ "/" ++ st.clients_endpoint)
    client_id role_name token optional_actions optional_members t
  { post := st, reqs := tr.1, out := tr.2 }

/-- Embedding of `Clients.view_client_role` of `src/clients.py`: delegates to
`Roles.view_role` and re-raises any exception unchanged. -/
def view_client_role (st : ClientsSt) (client_id domain_id role_id token : String)
    (t : Transport) : Run ClientsSt (List (String × Json)) :=
  let tr := Roles.view_role st.clients_url (domain_id ++ "/" ++ st.clients_endpoint)
    client_id role_id token t
  { post := st, reqs := tr.1, out := tr.2 }

/-- Embedding of `Clients.delete_client_role` of `src/clients.py`: delegates
to `Roles.delete_role` and re-raises any exception unchanged. -/
def delete_client_role (st : ClientsSt) (client_id domain_id role_id token : String)
    (t : Transport) : Run ClientsSt Response :=
  let tr := Roles.delete_role st.clients_url (domain_id ++ "/" ++ st.clients_endpoint)
    client_id role_id token t
  { post := st, reqs := tr.1, out := tr.2 }

end Clients

/-- State of a `Channels` API client (`Channels.__init__` of
`src/channels.py`). -/
structure ChannelsSt where
  channels_url : String
  content_type : String
  channels_endpoint : String
deriving DecidableEq

namespace Channels

/-- Embedding of `Channels.__init__` of `src/channels.py`. -/
def init (channels_url : String) : ChannelsSt :=
  { channels_url := rstripSlashes channels_url,
    content_type := "application/json",
    channels_endpoint := "channels" }

/-- Embedding of `Channels.create_channel_role` of `src/channels.py`:
delegates to `Roles.create_role` and re-raises any exception unchanged. -/
def create_channel_role (st : ChannelsSt) (channel_id role_name domain_id token : String)
    (optional_actions optional_members : Option (List String)) (t : Transport) :
    Run ChannelsSt (List (String × Json)) :=
  let tr := Roles.create_role st.channels_url (domain_id ++ "/" ++ st.channels_endpoint)
    channel_id role_name token optional_actions optional_members t
  { post := st, reqs := tr.1, out := tr.2 }

end Channels

/-- State of a `Groups` API client (`Groups.__init__` of `src/groups.py`). -/
structure GroupsSt where
  groups_url : String
  content_type : String
  groups_endpoint : String
deriving DecidableEq

namespace Groups

/-- Embedding of `Groups.__init__` of `src/groups.py`. -/
def init (groups_url : String) : GroupsSt :=
  { groups_url := rstripSlashes groups_url,
    content_type := "application/json",
    groups_endpoint := "groups" }

/-- Embedding of `Groups.create_group_role` of `src/groups.py`: delegates to
`Roles.create_role` and re-raises any exception unchanged. -/
def create_group_role (st : GroupsSt) (group_id role_name domain_id token : String)
    (optional_actions optional_members : Option (List String)) (t : Transport) :
    Run GroupsSt (List (String × Json)) :=
  let tr := Roles.create_role st.groups_url (domain_id ++ "/" ++ st.groups_endpoint)
    group_id role_name token optional_actions optional_members t
  { post := st, reqs := tr.1, out := tr.2 }

end Groups

/-- State of a `Domains` API client (`Domains.__init__` of
`src/domains.py`). -/
structure DomainsSt where
  domains_url : String
  content_type : String
  domains_endpoint : String
  invitations_endpoint : String
deriving DecidableEq

namespace Domains

/-- Embedding of `Domains.__init__` of `src/domains.py`. -/
def init (domains_url : String) : DomainsSt :=
  { domains_url := rstripSlashes domains_url,
    content_type := "application/json",
    domains_endpoint := "domains",
    invitations_endpoint := "invitations" }

/-- Embedding of `Domains.create_domain_role` of `src/domains.py`: delegates
to `Roles.create_role` with the path segment `self.domains_endpoint` (the
domain itself is the entity, so no domain prefix is prepended) and re-raises
any exception unchanged. -/
def create_domain_role (st : DomainsSt) (domain_id role_name token : String)
    (optional_actions optional_members : Option (List String)) (t : Transport) :
    Run DomainsSt (List (String × Json)) :=
  let tr := Roles.create_role st.domains_url st.domains_endpoint
    domain_id role_name token optional_actions optional_members t
  { post := st, reqs := tr.1, out := tr.2 }

end Domains

/-- State of a `Messages` API client (`Messages.__init__` of
`src/messages.py`). -/
structure MessagesSt where
  readers_url : String
  http_adapter_url : String
  content_type : String
deriving DecidableEq

namespace Messages

/-- Embedding of `Messages.__init__` of `src/messages.py`. -/
def init (readers_url http_adapter_url : String) : MessagesSt :=
  { readers_url := rstripSlashes readers_url,
    http_adapter_url := rstripSlashes http_adapter_url,
    content_type := "application/json" }

/-- Embedding of `Messages.send` of `src/messages.py`: split the dotted topic
into the channel ID (first segment) and the subtopic (remaining segments
joined by `/`), POST the raw message body to
`m/{domain_id}/c/{chan_id}/{subtopic}` under the HTTP adapter base URL with a
`Client {secret}` authorization header. -/
def send (st : MessagesSt) (domain_id topic msg secret : String) (t : Transport) :
    Run MessagesSt Response :=
  let topic_parts := topic.splitOn "."
  let chan_id := topic_parts.headD ""
  let subtopic := String.intercalate "/" topic_parts.tail
  let headers := [("Content-Type", st.content_type), ("Authorization", "Client " ++ secret)]
  let url := urljoin (st.http_adapter_url ++ "/")
    ("m/" ++ domain_id ++ "/c/" ++ chan_id ++ "/" ++ subtopic)
  let r : HttpRequest :=
    { method := "POST", url := url, headers := headers, body := some msg, timeout := 30 }
  { post := st, reqs := [r],
    out :=
      match t r with
      | .exn e => .raise (.transport e)
      | .ok resp =>
          if responseOk resp.status then
            .ok { status := resp.status, message := some "Message sent successfully" }
          else
            match pyGet resp.body "message" with
            | .ok msg' =>
                match pyGet resp.body "error" with
                | .ok det => .raise (.sdk (Errors.handle_error msg' resp.status det))
                | .raise e => .raise e
            | .raise e => .raise e }

end Messages

/-- Embedding of the `BootstrapConfig` dataclass of `src/defs.py`. -/
structure BootstrapConfig where
  channels : Option (List String)
  external_id : Option String
  external_key : Option String
  client_id : Option String
  client_secret : Option String
  name : Option String
  client_cert : Option String
  client_key : Option String
  ca_cert : Option String
  content : Option String
  state : Option Int
  encrypted_bootstrap : Option String
  decrypted_key : Option String
  encrypted_buffer : Option String
  decrypted : Option String

/-- The `__dict__` of a `BootstrapConfig` instance as a JSON object, in field
declaration order, with `None` fields serialized as `null` (as `json.dumps`
does). -/
def bootstrapConfigJson (c : BootstrapConfig) : Json :=
  .obj [("channels", optStrList c.channels),
    ("external_id", optStr c.external_id),
    ("external_key", optStr c.external_key),
    ("client_id", optStr c.client_id),
    ("client_secret", optStr c.client_secret),
    ("name", optStr c.name),
    ("client_cert", optStr c.client_cert),
    ("client_key", optStr c.client_key),
    ("ca_cert", optStr c.ca_cert),
    ("content", optStr c.content),
    ("state", optInt c.state),
    ("encrypted_bootstrap", optStr c.encrypted_bootstrap),
    ("decrypted_key", optStr c.decrypted_key),
    ("encrypted_buffer", optStr c.encrypted_buffer),
    ("decrypted", optStr c.decrypted)]

/-- State of a `Bootstrap` API client (`Bootstrap.__init__` of
`src/bootstrap.py`). -/
structure BootstrapSt where
  bootstrap_url : String
  content_type : String
  bootstrap_endpoint : String
  configs_endpoint : String
  whitelist_endpoint : String
  bootstrap_certs_endpoint : String
  bootstrap_conn_endpoint : String
  secure_endpoint : String
deriving DecidableEq

namespace Bootstrap

/-- Embedding of `Bootstrap.__init__` of `src/bootstrap.py`. -/
def init (bootstrap_url : String) : BootstrapSt :=
  { bootstrap_url := rstripSlashes bootstrap_url,
    content_type := "application/json",
    bootstrap_endpoint := "clients/bootstrap",
    configs_endpoint := "clients/configs",
    whitelist_endpoint := "clients/state",
    bootstrap_certs_endpoint := "clients/configs/certs",
    bootstrap_conn_endpoint := "clients/configs/connections",
    secure_endpoint := "secure" }

/-- Embedding of `Bootstrap.add_bootstrap` of `src/bootstrap.py`: POST the
`__dict__` of the configuration (a dataclass always has `__dict__`) and pass
the error body's `error` field as the third, detail argument of
`Errors.handle_error`. -/
def add_bootstrap (st : BootstrapSt) (bootstrap_config : BootstrapConfig)
    (domain_id token : String) (t : Transport) : Run BootstrapSt Response :=
  let headers := [("Content-Type", st.content_type), ("Authorization", "Bearer " ++ token)]
  let url := urljoin (st.bootstrap_url ++ "/") (domain_id ++ "/" ++ st.configs_endpoint)
  let r : HttpRequest :=
    { method := "POST", url := url, headers := headers,
      body := some (jsonDumps (bootstrapConfigJson bootstrap_config)), timeout := 30 }
  { post := st, reqs := [r],
    out :=
      match t r with
      | .exn e => .raise (.transport e)
      | .ok resp =>
          if responseOk resp.status then
            .ok { status := resp.status, message := some "Bootstrap configuration created" }
          else
            match pyGet resp.body "message" with
            | .ok msg =>
                match pyGet resp.body "error" with
                | .ok det => .raise (.sdk (Errors.handle_error msg resp.status det))
                | .raise e => .raise e
            | .raise e => .raise e }

end Bootstrap

/-- State of a `Health` client (`Health.__init__` of `src/health.py`): every
service URL is optional, a missing or empty constructor argument leaving the
field `None`. -/
structure HealthSt where
  users_url : Option String
  clients_url : Option String
  channels_url : Option String
  bootstrap_url : Option String
  certs_url : Option String
  readers_url : Option String
  http_adapter_url : Option String
  journal_url : Option String
  invitations_url : Option String
  domains_url : Option String
  groups_url : Option String
  auth_url : Option String
  health_endpoint : String
deriving DecidableEq

namespace Health

/-- Embedding of the per-argument `x.rstrip('/') if x else None` pattern of
`Health.__init__`: `None` and the empty string (both falsy) become `None`. -/
def initUrl (u : Option String) : Option String :=
  match u with
  | none => none
  | some s => if s = "" then none else some (rstripSlashes s)

/-- Embedding of `Health.__init__` of `src/health.py`. -/
def init (users_url clients_url channels_url bootstrap_url certs_url readers_url
    http_adapter_url journal_url invitations_url domains_url groups_url auth_url :
    Option String) : HealthSt :=
  { users_url := initUrl users_url,
    clients_url := initUrl clients_url,
    channels_url := initUrl channels_url,
    bootstrap_url := initUrl bootstrap_url,
    certs_url := initUrl certs_url,
    readers_url := initUrl readers_url,
    http_adapter_url := initUrl http_adapter_url,
    journal_url := initUrl journal_url,
    invitations_url := initUrl invitations_url,
    domains_url := initUrl domains_url,
    groups_url := initUrl groups_url,
    auth_url := initUrl auth_url,
    health_endpoint := "health" }

/-- The `service_urls` dictionary lookup of `Health.health` of
`src/health.py`: `dict.get` returns `None` both for an unknown service name
and for a service whose URL field is `None`. -/
def serviceUrl (st : HealthSt) (service : String) : Option String :=
  if service = "clients" then st.clients_url
  else if service = "users" then st.users_url
  else if service = "channels" then st.channels_url
  else if service = "bootstrap" then st.bootstrap_url
  else if service = "certs" then st.certs_url
  else if service = "reader" then st.readers_url
  else if service = "http-adapter" then st.http_adapter_url
  else if service = "journal" then st.journal_url
  else if service = "invitations" then st.invitations_url
  else if service = "domains" then st.domains_url
  else if service = "groups" then st.groups_url
  else if service = "pats" then st.auth_url
  else none

/-- Embedding of `Health.health` of `src/health.py`: raises `ValueError`
without issuing any request when no URL is configured for the service,
otherwise GETs `{url}/health` with no headers and parses the body into
`HealthInfo` (all of whose fields are required). -/
def health (st : HealthSt) (service : String) (t : Transport) :
    Run HealthSt (List (String × Json)) :=
  match serviceUrl st service with
  | none =>
      { post := st, reqs := [],
        out := .raise (.valueError ("Service \x27" ++ service
          ++ "\x27 is not configured or not supported")) }
  | some url =>
      let full_url := urljoin (url ++ "/") st.health_endpoint
      let r : HttpRequest :=
        { method := "GET", url := full_url, headers := [], body := none, timeout := 30 }
      { post := st, reqs := [r],
        out :=
          match t r with
          | .exn e => .raise (.transport e)
          | .ok resp =>
              if responseOk resp.status then
                match pyKwargs healthInfoFieldNames healthInfoFieldNames resp.body with
                | .ok fields => .ok fields
                | .raise e => .raise e
              else
                match pyGet resp.body "message" with
                | .ok msg => .raise (.sdk (Errors.handle_error msg resp.status none))
                | .raise e => .raise e }

end Health

/-- Embedding of the `PageMetadata` dataclass of `src/defs.py` (including the
inherited `BasicPageMeta` fields), the parameters object of the list
endpoints. -/
structure PageMetadata where
  total : Option Int := none
  offset : Option Int := none
  limit : Option Int := none
  order : Option String := none
  dir : Option String := none
  level : Option Int := none
  email : Option String := none
  username : Option String := none
  first_name : Option String := none
  last_name : Option String := none
  name : Option String := none
  type_ : Option String := none
  metadata : Option Json := none
  status : Option String := none
  action : Option String := none
  subject : Option String := none
  object : Option String := none
  tag : Option String := none
  id : Option String := none
  tree : Option Bool := none
  owner : Option String := none
  shared_by : Option String := none
  visibility : Option String := none
  owner_id : Option String := none
  topic : Option String := none
  contact : Option String := none
  state : Option String := none
  list_perms : Option Bool := none
  invited_by : Option String := none
  domain : Option String := none
  user_id : Option String := none
  relation : Option String := none
  from_ : Option Int := none
  to_ : Option Int := none
  access_type : Option String := none
  actions : Option (List String) := none
  role_id : Option String := none
  role_name : Option String := none
  group : Option String := none
  client : Option String := none
  channel : Option String := none
  connection_type : Option String := none
  root_group : Option Bool := none

/-- State of a `Users` API client (`Users.__init__` of `src/users.py`). -/
structure UsersSt where
  users_url : String
  content_type : String
  users_endpoint : String
deriving DecidableEq

namespace Users

/-- Embedding of `Users.__init__` of `src/users.py`. -/
def init (users_url : String) : UsersSt :=
  { users_url := rstripSlashes users_url,
    content_type := "application/json",
    users_endpoint := "users" }

/-- Embedding of `Users.users` of `src/users.py` (lines 487-489): its first
statement evaluates `query_params.items()`, but `PageMetadata` is a plain
dataclass that defines no `items` method, so the call raises
`AttributeError` before any request is issued. -/
def users (st : UsersSt) (query_params : PageMetadata) (token : String) (t : Transport) :
    Run UsersSt (List (String × Json)) :=
  { post := st, reqs := [],
    out := .raise (.attributeError "PageMetadata object has no attribute items") }

end Users

/-- A transport that always fails with a timeout, for concrete runs. -/
def tNet : Transport := fun _ => .exn (.timeout "connection timed out")

/-- A transport that always answers 304 Not Modified with an empty JSON
object body, for concrete runs. -/
def t304 : Transport := fun _ => .ok { status := 304, body := .obj [] }

theorem xorBytes_length (a b : List Nat) :
    (xorBytes a b).length = min a.length b.length := by
  simp [xorBytes]

theorem xorBytes_cancel : ∀ (a b : List Nat), a.length ≤ b.length →
    xorBytes (xorBytes a b) b = a
  | [], _, _ => by simp [xorBytes]
  | x :: a, [], h => by simp at h
  | x :: a, y :: b, h => by
      simp only [xorBytes, List.zipWith]
      rw [Nat.xor_assoc, Nat.xor_self, Nat.xor_zero]
      have := xorBytes_cancel a b (by simpa using h)
      simp [xorBytes] at this
      simp [this]

theorem xorBytes_lt : ∀ (a b : List Nat), (∀ x ∈ a, x < 256) → (∀ x ∈ b, x < 256) →
    ∀ x ∈ xorBytes a b, x < 256
  | [], _, _, _ => by simp [xorBytes]
  | _ :: _, [], _, _ => by simp [xorBytes]
  | x :: a, y :: b, ha, hb => by
      intro z hz
      simp only [xorBytes, List.zipWith, List.mem_cons] at hz
      rcases hz with h | h
      · subst h
        exact Nat.xor_lt_two_pow (n := 8) (ha x (by simp)) (hb y (by simp))
      · exact xorBytes_lt a b (fun u hu => ha u (by simp [hu])) (fun u hu => hb u (by simp [hu])) z h

theorem hexVal_hexDigit (n : Nat) (h : n < 16) : hexVal (hexDigit n) = some n := by
  interval_cases n <;> rfl

theorem hexDigit_ne_space (n : Nat) (h : n < 16) : hexDigit n ≠ ' ' := by
  interval_cases n <;> decide

theorem fromhexChars_byte (b : Nat) (hb : b < 256) (rest : List Char) :
    fromhexChars (hexDigit (b / 16) :: hexDigit (b % 16) :: rest)
      = (fromhexChars rest).map (fun bs => b :: bs) := by
  have h1 : b / 16 < 16 := by omega
  have h2 : b % 16 < 16 := by omega
  rw [fromhexChars]
  rw [if_neg (hexDigit_ne_space _ h1)]
  simp only [hexVal_hexDigit _ h1, hexVal_hexDigit _ h2]
  have : 16 * (b / 16) + b % 16 = b := by omega
  rw [this]

theorem fromhexChars_append (bs : List Nat) (hb : ∀ b ∈ bs, b < 256) (tl : List Char) :
    fromhexChars (bs.flatMap (fun b => [hexDigit (b / 16), hexDigit (b % 16)]) ++ tl)
      = (fromhexChars tl).map (fun cs => bs ++ cs) := by
  induction bs with
  | nil => simp
  | cons b bs ih =>
      have hb0 : b < 256 := hb b (by simp)
      simp only [List.flatMap_cons, List.append_assoc, List.cons_append, List.nil_append]
      rw [fromhexChars_byte b hb0, ih (fun x hx => hb x (by simp [hx]))]
      cases fromhexChars tl <;> rfl

/-- Round trip of the hex codec: `bytes.fromhex` undoes `bytes.hex()`. -/
theorem bytesFromhex_bytesHex (bs : List Nat) (hb : ∀ b ∈ bs, b < 256) :
    bytesFromhex (bytesHex bs) = some bs := by
  have := fromhexChars_append bs hb []
  simpa [bytesFromhex, bytesHex, fromhexChars] using this

theorem utf8EncodeCharNat_lt (n : Nat) (h : n < 0x110000) :
    ∀ b ∈ utf8EncodeCharNat n, b < 256 := by
  intro b hb
  unfold utf8EncodeCharNat at hb
  split at hb
  · simp at hb; omega
  · split at hb
    · simp at hb
      rcases hb with h' | h' <;> omega
    · split at hb
      · simp at hb
        rcases hb with h' | h' | h' <;> omega
      · simp at hb
        rcases hb with h' | h' | h' | h' <;> omega

theorem utf8Encode_lt (s : String) : ∀ b ∈ utf8Encode s, b < 256 := by
  intro b hb
  simp only [utf8Encode, List.mem_flatMap] at hb
  obtain ⟨c, _, hbc⟩ := hb
  have hval : Nat.isValidChar c.toNat := c.valid
  have : c.toNat < 0x110000 := by
    rcases hval with h | ⟨h1, h2⟩ <;> omega
  exact utf8EncodeCharNat_lt _ this b hbc

theorem utf8DecodeAux_encode_cons (c : Char) (rest : List Nat) (fuel : Nat) :
    utf8DecodeAux (fuel + 1) (utf8EncodeCharNat c.toNat ++ rest)
      = (utf8DecodeAux fuel rest).map (fun cs => c :: cs) := by
  have hval : Nat.isValidChar c.toNat := c.valid
  have hlt : c.toNat < 0x110000 := by rcases hval with h | ⟨h1, h2⟩ <;> omega
  have hsur : ¬ (0xD800 ≤ c.toNat ∧ c.toNat < 0xE000) := by
    rcases hval with h | ⟨h1, h2⟩ <;> omega
  set n := c.toNat with hn
  by_cases h1 : n < 0x80
  · rw [utf8EncodeCharNat, if_pos h1]
    rw [List.cons_append, List.nil_append]
    simp only [utf8DecodeAux, if_pos h1]
    rw [hn, Char.ofNat_toNat]
  · by_cases h2 : n < 0x800
    · rw [utf8EncodeCharNat, if_neg h1, if_pos h2]
      rw [List.cons_append, List.cons_append, List.nil_append]
      have e1 : ¬ (0xC0 + n / 0x40 < 0x80) := by omega
      have e2 : ¬ (0xC0 + n / 0x40 < 0xC2) := by omega
      have e3 : 0xC0 + n / 0x40 < 0xE0 := by omega
      have e4 : 0x80 ≤ 0x80 + n % 0x40 ∧ 0x80 + n % 0x40 < 0xC0 := by omega
      simp only [utf8DecodeAux, if_neg e1, if_neg e2, if_pos e3, List.getD_cons_zero,
        List.getD_cons_succ, List.drop_succ_cons, List.drop_zero, if_pos e4]
      have e5 : (0xC0 + n / 0x40 - 0xC0) * 0x40 + (0x80 + n % 0x40 - 0x80) = n := by omega
      rw [e5, hn, Char.ofNat_toNat]
    · by_cases h3 : n < 0x10000
      · rw [utf8EncodeCharNat, if_neg h1, if_neg h2, if_pos h3]
        rw [List.cons_append, List.cons_append, List.cons_append, List.nil_append]
        have e1 : ¬ (0xE0 + n / 0x1000 < 0x80) := by omega
        have e2 : ¬ (0xE0 + n / 0x1000 < 0xC2) := by omega
        have e3 : ¬ (0xE0 + n / 0x1000 < 0xE0) := by omega
        have e4 : 0xE0 + n / 0x1000 < 0xF0 := by omega
        have e5 : 0x80 ≤ 0x80 + n / 0x40 % 0x40 ∧ 0x80 + n / 0x40 % 0x40 < 0xC0
            ∧ 0x80 ≤ 0x80 + n % 0x40 ∧ 0x80 + n % 0x40 < 0xC0 := by omega
        simp only [utf8DecodeAux, if_neg e1, if_neg e2, if_neg e3, if_pos e4,
          List.getD_cons_zero, List.getD_cons_succ, List.drop_succ_cons, List.drop_zero,
          if_pos e5]
        have e6 : (0xE0 + n / 0x1000 - 0xE0) * 0x1000 + (0x80 + n / 0x40 % 0x40 - 0x80) * 0x40
            + (0x80 + n % 0x40 - 0x80) = n := by omega
        rw [e6]
        have e7 : ¬ (n < 0x800 ∨ (0xD800 ≤ n ∧ n < 0xE000)) := by
          push_neg
          exact ⟨by omega, fun hx => by omega⟩
        rw [if_neg e7, hn, Char.ofNat_toNat]
      · rw [utf8EncodeCharNat, if_neg h1, if_neg h2, if_neg h3]
        rw [List.cons_append, List.cons_append, List.cons_append, List.cons_append,
          List.nil_append]
        have e1 : ¬ (0xF0 + n / 0x40000 < 0x80) := by omega
        have e2 : ¬ (0xF0 + n / 0x40000 < 0xC2) := by omega
        have e3 : ¬ (0xF0 + n / 0x40000 < 0xE0) := by omega
        have e4 : ¬ (0xF0 + n / 0x40000 < 0xF0) := by omega
        have e5 : 0xF0 + n / 0x40000 < 0xF5 := by omega
        have e6 : 0x80 ≤ 0x80 + n / 0x1000 % 0x40 ∧ 0x80 + n / 0x1000 % 0x40 < 0xC0
            ∧ 0x80 ≤ 0x80 + n / 0x40 % 0x40 ∧ 0x80 + n / 0x40 % 0x40 < 0xC0
            ∧ 0x80 ≤ 0x80 + n % 0x40 ∧ 0x80 + n % 0x40 < 0xC0 := by omega
        simp only [utf8DecodeAux, if_neg e1, if_neg e2, if_neg e3, if_neg e4, if_pos e5,
          List.getD_cons_zero, List.getD_cons_succ, List.drop_succ_cons, List.drop_zero,
          if_pos e6]
        have e7 : (0xF0 + n / 0x40000 - 0xF0) * 0x40000 + (0x80 + n / 0x1000 % 0x40 - 0x80) * 0x1000
            + (0x80 + n / 0x40 % 0x40 - 0x80) * 0x40 + (0x80 + n % 0x40 - 0x80) = n := by omega
        rw [e7]
        have e8 : ¬ (n < 0x10000 ∨ 0x110000 ≤ n) := by omega
        rw [if_neg e8, hn, Char.ofNat_toNat]

theorem utf8DecodeAux_utf8Encode : ∀ (cs : List Char) (fuel : Nat), cs.length ≤ fuel →
    utf8DecodeAux fuel (cs.flatMap (fun c => utf8EncodeCharNat c.toNat)) = some cs
  | [], fuel, _ => by simp [utf8DecodeAux]
  | c :: cs, 0, h => by simp at h
  | c :: cs, fuel + 1, h => by
      rw [List.flatMap_cons, utf8DecodeAux_encode_cons,
        utf8DecodeAux_utf8Encode cs fuel (by simpa using h)]
      rfl

theorem utf8EncodeCharNat_length_pos (n : Nat) : 1 ≤ (utf8EncodeCharNat n).length := by
  rw [utf8EncodeCharNat]
  repeat' split
  all_goals simp

theorem length_le_utf8Encode_length (cs : List Char) :
    cs.length ≤ (cs.flatMap (fun c => utf8EncodeCharNat c.toNat)).length := by
  induction cs with
  | nil => simp
  | cons c cs ih =>
      rw [List.flatMap_cons, List.length_append, List.length_cons]
      have := utf8EncodeCharNat_length_pos c.toNat
      omega

/-- Round trip of the UTF-8 codec: decoding an encoded string gives back the
string. -/
theorem utf8Decode_utf8Encode (s : String) : utf8Decode (utf8Encode s) = some s := by
  rw [utf8Decode, utf8DecodeChars, utf8Encode,
    utf8DecodeAux_utf8Encode s.data _ (length_le_utf8Encode_length s.data)]
  rfl

/-- Helper: a `getD` lookup in a list of bytes below 256 is below 256. -/
theorem getD_lt_256 (l : List Nat) (n : Nat) (h : ∀ x ∈ l, x < 256) : l.getD n 0 < 256 := by
  by_cases hn : n < l.length
  · rw [List.getD_eq_getElem?_getD, List.getElem?_eq_getElem hn]
    exact h _ (List.getElem_mem hn)
  · rw [List.getD_eq_getElem?_getD, List.getElem?_eq_none (by omega)]
    simp

set_option maxRecDepth 4000 in
theorem sbox_length : sbox.length = 256 := by rfl

set_option maxRecDepth 4000 in
theorem sbox_lt : ∀ x ∈ sbox, x < 256 := by decide

theorem sbByte_lt (b : Nat) : sbByte b < 256 :=
  getD_lt_256 sbox b sbox_lt

theorem xtime_lt (b : Nat) (h : b < 256) : xtime b < 256 := by
  rw [xtime]
  split
  · omega
  · exact Nat.xor_lt_two_pow (n := 8) (by omega) (by omega)

theorem subBytes_length (s : List Nat) : (subBytes s).length = s.length := by
  simp [subBytes]

theorem subBytes_lt (s : List Nat) : ∀ b ∈ subBytes s, b < 256 := by
  intro b hb
  simp only [subBytes, List.mem_map] at hb
  obtain ⟨a, _, rfl⟩ := hb
  exact sbByte_lt a

theorem shiftRows_length (s : List Nat) : (shiftRows s).length = 16 := by rfl

theorem shiftRows_lt (s : List Nat) (h : ∀ x ∈ s, x < 256) : ∀ b ∈ shiftRows s, b < 256 := by
  intro b hb
  simp only [shiftRows, List.mem_cons, List.not_mem_nil, or_false] at hb
  rcases hb with h' | h' | h' | h' | h' | h' | h' | h' | h' | h' | h' | h' | h' | h' | h' | h' <;>
    (subst h'; exact getD_lt_256 s _ h)

theorem mixCol_length (a0 a1 a2 a3 : Nat) : (mixCol a0 a1 a2 a3).length = 4 := by rfl

theorem mixCol_lt (a0 a1 a2 a3 : Nat) (h0 : a0 < 256) (h1 : a1 < 256) (h2 : a2 < 256)
    (h3 : a3 < 256) : ∀ b ∈ mixCol a0 a1 a2 a3, b < 256 := by
  have x0 := xtime_lt a0 h0
  have x1 := xtime_lt a1 h1
  have x2 := xtime_lt a2 h2
  have x3 := xtime_lt a3 h3
  have xor8 : ∀ a b : Nat, a < 256 → b < 256 → a ^^^ b < 256 := fun a b ha hb =>
    Nat.xor_lt_two_pow (n := 8) ha hb
  intro b hb
  simp only [mixCol, List.mem_cons, List.not_mem_nil, or_false] at hb
  rcases hb with h' | h' | h' | h' <;> subst h' <;>
    solve
    | exact xor8 _ _ (xor8 _ _ (xor8 _ _ x0 (xor8 _ _ x1 h1)) h2) h3
    | exact xor8 _ _ (xor8 _ _ (xor8 _ _ h0 x1) (xor8 _ _ x2 h2)) h3
    | exact xor8 _ _ (xor8 _ _ (xor8 _ _ h0 h1) x2) (xor8 _ _ x3 h3)
    | exact xor8 _ _ (xor8 _ _ (xor8 _ _ (xor8 _ _ x0 h0) h1) h2) x3

theorem mixColumns_length (s : List Nat) : (mixColumns s).length = 16 := by
  simp [mixColumns, mixCol]

theorem mixColumns_lt (s : List Nat) (h : ∀ x ∈ s, x < 256) : ∀ b ∈ mixColumns s, b < 256 := by
  intro b hb
  simp only [mixColumns, List.mem_append] at hb
  have g : ∀ n : Nat, s.getD n 0 < 256 := fun n => getD_lt_256 s n h
  rcases hb with ((hb | hb) | hb) | hb <;>
    exact mixCol_lt _ _ _ _ (g _) (g _) (g _) (g _) b hb

/-- Helper: a `getD` lookup at an in-range index is a member of the list. -/
theorem getD_mem {α : Type} (l : List α) (n : Nat) (d : α) (h : n < l.length) :
    l.getD n d ∈ l := by
  rw [List.getD_eq_getElem?_getD, List.getElem?_eq_getElem h]
  exact List.getElem_mem h

theorem rotWord_length (w : List Nat) : (rotWord w).length = w.length := by
  simp [rotWord]
  omega

theorem rotWord_lt (w : List Nat) (h : ∀ b ∈ w, b < 256) : ∀ b ∈ rotWord w, b < 256 := by
  intro b hb
  simp only [rotWord, List.mem_append] at hb
  rcases hb with hb | hb
  · exact h b (List.mem_of_mem_drop hb)
  · exact h b (List.mem_of_mem_take hb)

theorem subWord_length (w : List Nat) : (subWord w).length = w.length := by
  simp [subWord]

theorem subWord_lt (w : List Nat) : ∀ b ∈ subWord w, b < 256 := by
  intro b hb
  simp only [subWord, List.mem_map] at hb
  obtain ⟨a, _, rfl⟩ := hb
  exact sbByte_lt a

theorem rcon_getD_lt (n : Nat) : rcon.getD n 0 < 256 :=
  getD_lt_256 rcon n (by decide)

theorem keyExpandStep_wf (w : List (List Nat)) (h8 : 8 ≤ w.length) (hw : WordsWF w) :
    (keyExpandStep w).length = w.length + 1 ∧ WordsWF (keyExpandStep w) := by
  have hprev := hw (w.getD (w.length - 1) []) (getD_mem w _ [] (by omega))
  have hw8 := hw (w.getD (w.length - 8) []) (getD_mem w _ [] (by omega))
  have htemp : ∀ t ∈ [xorBytes (subWord (rotWord (w.getD (w.length - 1) [])))
        [rcon.getD (w.length / 8 - 1) 0, 0, 0, 0],
      subWord (w.getD (w.length - 1) []), w.getD (w.length - 1) []],
      t.length = 4 ∧ ∀ b ∈ t, b < 256 := by
    intro t ht
    simp only [List.mem_cons, List.not_mem_nil, or_false] at ht
    rcases ht with rfl | rfl | rfl
    · constructor
      · rw [xorBytes_length, subWord_length, rotWord_length, hprev.1]
        simp
      · refine xorBytes_lt _ _ (subWord_lt _) ?_
        intro b hb
        simp only [List.mem_cons, List.not_mem_nil, or_false] at hb
        rcases hb with rfl | rfl | rfl | rfl
        · exact rcon_getD_lt _
        all_goals omega
    · exact ⟨by rw [subWord_length, hprev.1], subWord_lt _⟩
    · exact hprev
  constructor
  · simp [keyExpandStep]
  · intro u hu
    simp only [keyExpandStep, List.mem_append, List.mem_cons, List.not_mem_nil, or_false] at hu
    rcases hu with hu | rfl
    · exact hw u hu
    · have ht : (if w.length % 8 = 0 then
          xorBytes (subWord (rotWord (w.getD (w.length - 1) [])))
            [rcon.getD (w.length / 8 - 1) 0, 0, 0, 0]
        else if w.length % 8 = 4 then subWord (w.getD (w.length - 1) [])
        else w.getD (w.length - 1) []).length = 4
        ∧ ∀ b ∈ (if w.length % 8 = 0 then
          xorBytes (subWord (rotWord (w.getD (w.length - 1) [])))
            [rcon.getD (w.length / 8 - 1) 0, 0, 0, 0]
        else if w.length % 8 = 4 then subWord (w.getD (w.length - 1) [])
        else w.getD (w.length - 1) []), b < 256 := by
        split
        · exact htemp _ (by simp)
        · split
          · exact htemp _ (by simp)
          · exact htemp _ (by simp)
      constructor
      · rw [xorBytes_length, hw8.1, ht.1]
        omega
      · exact xorBytes_lt _ _ hw8.2 ht.2

theorem keyExpandIter_wf : ∀ (k : Nat) (w : List (List Nat)), 8 ≤ w.length → WordsWF w →
    (keyExpandIter k w).length = w.length + k ∧ WordsWF (keyExpandIter k w)
  | 0, w, _, hw => ⟨rfl, hw⟩
  | k + 1, w, h8, hw => by
      have hstep := keyExpandStep_wf w h8 hw
      have := keyExpandIter_wf k (keyExpandStep w) (by omega) hstep.2
      rw [keyExpandIter]
      exact ⟨by rw [this.1, hstep.1]; omega, this.2⟩

theorem keyExpansion_wf (key : List Nat) (hk : key.length = 32) (hb : ∀ b ∈ key, b < 256) :
    (keyExpansion key).length = 60 ∧ WordsWF (keyExpansion key) := by
  have h0 : ((List.range 8).map (fun i => (key.drop (4 * i)).take 4)).length = 8 := by simp
  have hw0 : WordsWF ((List.range 8).map (fun i => (key.drop (4 * i)).take 4)) := by
    intro u hu
    simp only [List.mem_map, List.mem_range] at hu
    obtain ⟨i, hi, rfl⟩ := hu
    constructor
    · rw [List.length_take, List.length_drop, hk]
      omega
    · intro b hbb
      exact hb b (List.mem_of_mem_drop (List.mem_of_mem_take hbb))
  have := keyExpandIter_wf 52 _ (by omega) hw0
  rw [keyExpansion]
  exact ⟨by rw [this.1, h0], this.2⟩

theorem sum_map_length_four : ∀ (l : List (List Nat)), (∀ u ∈ l, u.length = 4) →
    (l.map List.length).sum = 4 * l.length
  | [], _ => rfl
  | u :: l, h => by
      have := sum_map_length_four l (fun v hv => h v (by simp [hv]))
      simp only [List.map_cons, List.sum_cons, this, h u (by simp), List.length_cons]
      ring

theorem roundKey_wf (w : List (List Nat)) (r : Nat) (hw : WordsWF w)
    (hlen : 4 * r + 4 ≤ w.length) :
    (roundKey w r).length = 16 ∧ ∀ b ∈ roundKey w r, b < 256 := by
  have hmem : ∀ u ∈ (w.drop (4 * r)).take 4, u ∈ w := fun u hu =>
    List.mem_of_mem_drop (List.mem_of_mem_take hu)
  constructor
  · rw [roundKey, List.length_flatten,
      sum_map_length_four _ (fun u hu => (hw u (hmem u hu)).1)]
    rw [List.length_take, List.length_drop]
    omega
  · intro b hb
    rw [roundKey, List.mem_flatten] at hb
    obtain ⟨u, hu, hbu⟩ := hb
    exact (hw u (hmem u hu)).2 b hbu

theorem aes_rounds_wf (w : List (List Nat)) (hw : WordsWF w) (hlen : w.length = 60) :
    ∀ (l : List Nat) (s : List Nat), (∀ r ∈ l, r + 1 ≤ 14) → s.length = 16 →
      (∀ b ∈ s, b < 256) →
      (l.foldl (fun s r =>
          addRoundKey (mixColumns (shiftRows (subBytes s))) (roundKey w (r + 1))) s).length = 16
      ∧ ∀ b ∈ l.foldl (fun s r =>
          addRoundKey (mixColumns (shiftRows (subBytes s))) (roundKey w (r + 1))) s, b < 256
  | [], s, _, hs, hsb => ⟨hs, hsb⟩
  | r :: l, s, hl, hs, hsb => by
      have hrk := roundKey_wf w (r + 1) hw (by have := hl r (by simp); omega)
      have hnext : (addRoundKey (mixColumns (shiftRows (subBytes s)))
          (roundKey w (r + 1))).length = 16 := by
        rw [addRoundKey, xorBytes_length, mixColumns_length, hrk.1]
        omega
      have hnextb : ∀ b ∈ addRoundKey (mixColumns (shiftRows (subBytes s)))
          (roundKey w (r + 1)), b < 256 :=
        xorBytes_lt _ _ (mixColumns_lt _ (shiftRows_lt _ (subBytes_lt s))) hrk.2
      have := aes_rounds_wf w hw hlen l _ (fun x hx => hl x (by simp [hx])) hnext hnextb
      simpa using this

/-- AES-256 block encryption takes a 32-byte key and a 16-byte block to a
16-byte block of bytes. -/
theorem aes256EncryptBlock_wf (key block : List Nat) (hk : key.length = 32)
    (hkb : ∀ b ∈ key, b < 256) (hb : block.length = 16) (hbb : ∀ b ∈ block, b < 256) :
    (aes256EncryptBlock key block).length = 16 ∧ ∀ b ∈ aes256EncryptBlock key block, b < 256 := by
  have hke := keyExpansion_wf key hk hkb
  have hrk0 := roundKey_wf _ 0 hke.2 (by omega)
  have hs0 : (addRoundKey block (roundKey (keyExpansion key) 0)).length = 16 := by
    rw [addRoundKey, xorBytes_length, hb, hrk0.1]
    omega
  have hs0b : ∀ b ∈ addRoundKey block (roundKey (keyExpansion key) 0), b < 256 :=
    xorBytes_lt _ _ hbb hrk0.2
  have hrounds := aes_rounds_wf _ hke.2 hke.1 (List.range 13) _
    (fun r hr => by simp only [List.mem_range] at hr; omega) hs0 hs0b
  have hrk14 := roundKey_wf _ 14 hke.2 (by omega)
  rw [aes256EncryptBlock]
  constructor
  · rw [addRoundKey, xorBytes_length, shiftRows_length, hrk14.1]
    omega
  · exact xorBytes_lt _ _ (shiftRows_lt _ (subBytes_lt _)) hrk14.2

theorem cfbEncrypt_nil (E : List Nat → List Nat) (reg : List Nat) :
    cfbEncrypt E reg [] = [] := by
  rw [cfbEncrypt]
  simp

theorem cfbEncrypt_ne_nil (E : List Nat → List Nat) (reg pt : List Nat) (h : pt ≠ []) :
    cfbEncrypt E reg pt = xorBytes (pt.take 16) (E reg)
      ++ cfbEncrypt E (xorBytes (pt.take 16) (E reg)) (pt.drop 16) := by
  rw [cfbEncrypt.eq_def, dif_neg h]

theorem cfbDecrypt_nil (E : List Nat → List Nat) (reg : List Nat) :
    cfbDecrypt E reg [] = [] := by
  rw [cfbDecrypt]
  simp

theorem cfbDecrypt_ne_nil (E : List Nat → List Nat) (reg ct : List Nat) (h : ct ≠ []) :
    cfbDecrypt E reg ct = xorBytes (ct.take 16) (E reg)
      ++ cfbDecrypt E (ct.take 16) (ct.drop 16) := by
  rw [cfbDecrypt.eq_def, dif_neg h]

theorem cfbEncrypt_wf_aux (E : List Nat → List Nat) (hE : BlockE E) :
    ∀ (n : Nat) (pt reg : List Nat), pt.length ≤ n → reg.length = 16 →
      (∀ b ∈ reg, b < 256) → (∀ b ∈ pt, b < 256) →
      (cfbEncrypt E reg pt).length = pt.length ∧ ∀ b ∈ cfbEncrypt E reg pt, b < 256
  | 0, pt, reg, hn, _, _, _ => by
      have : pt = [] := by
        cases pt with
        | nil => rfl
        | cons x l => simp at hn
      subst this
      simp [cfbEncrypt_nil]
  | n + 1, pt, reg, hn, hreg, hregb, hptb => by
      by_cases hnil : pt = []
      · subst hnil
        simp [cfbEncrypt_nil]
      · rw [cfbEncrypt_ne_nil E reg pt hnil]
        have hks := hE reg hreg hregb
        have hcl : (xorBytes (pt.take 16) (E reg)).length = min 16 pt.length := by
          rw [xorBytes_length, List.length_take, hks.1]
          omega
        have hcb : ∀ b ∈ xorBytes (pt.take 16) (E reg), b < 256 :=
          xorBytes_lt _ _ (fun x hx => hptb x (List.mem_of_mem_take hx)) hks.2
        by_cases hlen : pt.length ≤ 16
        · have hdrop : pt.drop 16 = [] := List.drop_eq_nil_of_le hlen
          rw [hdrop, cfbEncrypt_nil]
          constructor
          · rw [List.length_append, hcl]
            simp
            omega
          · intro b hb
            rw [List.append_nil] at hb
            exact hcb b hb
        · have hc16 : (xorBytes (pt.take 16) (E reg)).length = 16 := by omega
          have hrec := cfbEncrypt_wf_aux E hE n (pt.drop 16) (xorBytes (pt.take 16) (E reg))
            (by rw [List.length_drop]; omega) hc16 hcb
            (fun x hx => hptb x (List.mem_of_mem_drop hx))
          constructor
          · rw [List.length_append, hcl, hrec.1, List.length_drop]
            omega
          · intro b hb
            rw [List.mem_append] at hb
            rcases hb with hb | hb
            · exact hcb b hb
            · exact hrec.2 b hb

/-- The CFB ciphertext has the length of the plaintext and consists of bytes. -/
theorem cfbEncrypt_wf (E : List Nat → List Nat) (hE : BlockE E) (pt reg : List Nat)
    (hreg : reg.length = 16) (hregb : ∀ b ∈ reg, b < 256) (hptb : ∀ b ∈ pt, b < 256) :
    (cfbEncrypt E reg pt).length = pt.length ∧ ∀ b ∈ cfbEncrypt E reg pt, b < 256 :=
  cfbEncrypt_wf_aux E hE pt.length pt reg le_rfl hreg hregb hptb

theorem cfbDecrypt_cfbEncrypt_aux (E : List Nat → List Nat) (hE : BlockE E) :
    ∀ (n : Nat) (pt reg : List Nat), pt.length ≤ n → reg.length = 16 →
      (∀ b ∈ reg, b < 256) → (∀ b ∈ pt, b < 256) →
      cfbDecrypt E reg (cfbEncrypt E reg pt) = pt
  | 0, pt, reg, hn, _, _, _ => by
      have : pt = [] := by
        cases pt with
        | nil => rfl
        | cons x l => simp at hn
      subst this
      rw [cfbEncrypt_nil, cfbDecrypt_nil]
  | n + 1, pt, reg, hn, hreg, hregb, hptb => by
      by_cases hnil : pt = []
      · subst hnil
        rw [cfbEncrypt_nil, cfbDecrypt_nil]
      · rw [cfbEncrypt_ne_nil E reg pt hnil]
        have hks := hE reg hreg hregb
        have hcl : (xorBytes (pt.take 16) (E reg)).length = min 16 pt.length := by
          rw [xorBytes_length, List.length_take, hks.1]
          omega
        have hcb : ∀ b ∈ xorBytes (pt.take 16) (E reg), b < 256 :=
          xorBytes_lt _ _ (fun x hx => hptb x (List.mem_of_mem_take hx)) hks.2
        have hpos : 0 < pt.length := List.length_pos.mpr hnil
        have hcancel : xorBytes (xorBytes (pt.take 16) (E reg)) (E reg) = pt.take 16 :=
          xorBytes_cancel _ _ (by rw [List.length_take, hks.1]; omega)
        by_cases hlen : pt.length ≤ 16
        · have hdrop : pt.drop 16 = [] := List.drop_eq_nil_of_le hlen
          rw [hdrop, cfbEncrypt_nil, List.append_nil]
          have hc_ne : xorBytes (pt.take 16) (E reg) ≠ [] := by
            intro hcontra
            have hlen0 := congrArg List.length hcontra
            rw [hcl] at hlen0
            simp only [List.length_nil] at hlen0
            omega
          rw [cfbDecrypt_ne_nil E reg _ hc_ne]
          have htake : (xorBytes (pt.take 16) (E reg)).take 16 = xorBytes (pt.take 16) (E reg) :=
            List.take_of_length_le (by omega)
          have hdrop2 : (xorBytes (pt.take 16) (E reg)).drop 16 = [] :=
            List.drop_eq_nil_of_le (by omega)
          rw [htake, hdrop2, cfbDecrypt_nil, List.append_nil, hcancel]
          exact List.take_of_length_le hlen
        · have hc16 : (xorBytes (pt.take 16) (E reg)).length = 16 := by omega
          have hct_ne : xorBytes (pt.take 16) (E reg)
              ++ cfbEncrypt E (xorBytes (pt.take 16) (E reg)) (pt.drop 16) ≠ [] := by
            intro hcontra
            have := congrArg List.length hcontra
            rw [List.length_append, hc16] at this
            simp at this
          rw [cfbDecrypt_ne_nil E reg _ hct_ne]
          have htake : (xorBytes (pt.take 16) (E reg)
              ++ cfbEncrypt E (xorBytes (pt.take 16) (E reg)) (pt.drop 16)).take 16
              = xorBytes (pt.take 16) (E reg) := by
            rw [List.take_append_eq_append_take, hc16]
            simp [List.take_of_length_le (le_of_eq hc16)]
          have hdrop2 : (xorBytes (pt.take 16) (E reg)
              ++ cfbEncrypt E (xorBytes (pt.take 16) (E reg)) (pt.drop 16)).drop 16
              = cfbEncrypt E (xorBytes (pt.take 16) (E reg)) (pt.drop 16) := by
            rw [List.drop_append_eq_append_drop, hc16]
            simp [List.drop_eq_nil_of_le (le_of_eq hc16)]
          rw [htake, hdrop2, hcancel]
          have hrec := cfbDecrypt_cfbEncrypt_aux E hE n (pt.drop 16)
            (xorBytes (pt.take 16) (E reg))
            (by rw [List.length_drop]; omega) hc16 hcb
            (fun x hx => hptb x (List.mem_of_mem_drop hx))
          rw [hrec, List.take_append_drop]

/-- Round trip of CFB mode: decrypting an encryption with the same block
function and IV recovers the plaintext. -/
theorem cfbDecrypt_cfbEncrypt (E : List Nat → List Nat) (hE : BlockE E) (pt reg : List Nat)
    (hreg : reg.length = 16) (hregb : ∀ b ∈ reg, b < 256) (hptb : ∀ b ∈ pt, b < 256) :
    cfbDecrypt E reg (cfbEncrypt E reg pt) = pt :=
  cfbDecrypt_cfbEncrypt_aux E hE pt.length pt reg le_rfl hreg hregb hptb

theorem cipherKey_length (k : String) : (Bootstrap.cipherKey k).length = 32 := by
  rw [Bootstrap.cipherKey]
  simp only [List.length_append, List.length_take, List.length_replicate]
  omega

theorem cipherKey_lt (k : String) : ∀ b ∈ Bootstrap.cipherKey k, b < 256 := by
  intro b hb
  rw [Bootstrap.cipherKey] at hb
  simp only [List.mem_append] at hb
  rcases hb with hb | hb
  · exact utf8Encode_lt k b (List.mem_of_mem_take hb)
  · rw [List.eq_of_mem_replicate hb]
    omega

/-- The AES-256 block function under a derived bootstrap key is a well-formed
block cipher on byte blocks. -/
theorem blockE_cipherKey (k : String) : BlockE (aes256EncryptBlock (Bootstrap.cipherKey k)) :=
  fun x hx hxb => aes256EncryptBlock_wf _ x (cipherKey_length k) (cipherKey_lt k) hx hxb

/-- Shared helper: decrypting an encryption recovers the plaintext text and
hands it to `json.loads`. -/
theorem bootstrap_decrypt_bootstrap_encrypt (iv : List Nat) (text crypto_key : String)
    (hiv : iv.length = 16) (hivb : ∀ b ∈ iv, b < 256) :
    Bootstrap.bootstrap_decrypt (Bootstrap.bootstrap_encrypt iv text crypto_key) crypto_key
      = pyJsonLoads text := by
  have hE := blockE_cipherKey crypto_key
  have hct := cfbEncrypt_wf _ hE (utf8Encode text) iv hiv hivb (utf8Encode_lt text)
  rw [Bootstrap.bootstrap_encrypt, Bootstrap.bootstrap_decrypt]
  rw [bytesFromhex_bytesHex _ (by
    intro b hb
    rw [List.mem_append] at hb
    rcases hb with hb | hb
    · exact hivb b hb
    · exact hct.2 b hb)]
  simp only [List.take_left' hiv, List.drop_left' hiv]
  rw [cfbDecrypt_cfbEncrypt _ hE _ iv hiv hivb (utf8Encode_lt text)]
  rw [utf8Decode_utf8Encode]

theorem getD_replicate_zero (n i : Nat) : (List.replicate n 0).getD i 0 = 0 := by
  rcases lt_or_le i n with h | h
  · rw [List.getD_eq_getElem?_getD, List.getElem?_eq_getElem (by simpa using h)]
    simp [List.getElem_replicate]
  · rw [List.getD_eq_getElem?_getD, List.getElem?_eq_none (by simpa using h)]
    rfl

/-- C1 (amended).  For every plaintext, crypto key and 16-byte IV, decrypting
the encryption recovers the plaintext text exactly and returns the result of
`json.loads` on it: `bootstrap_decrypt` parses the recovered text as JSON
instead of returning the plaintext string, so the round trip yields the
JSON value of the plaintext (and raises `json.JSONDecodeError` when the
plaintext is not valid JSON). -/
theorem c1_bootstrap_roundtrip_parses_plaintext (iv : List Nat) (text crypto_key : String)
    (hiv : iv.length = 16) (hivb : ∀ b ∈ iv, b < 256) :
    Bootstrap.bootstrap_decrypt (Bootstrap.bootstrap_encrypt iv text crypto_key) crypto_key
      = pyJsonLoads text :=
  bootstrap_decrypt_bootstrap_encrypt iv text crypto_key hiv hivb

/-- C1 witness: the amended round trip at a concrete IV, plaintext and key. -/
theorem c1_bootstrap_roundtrip_witness :
    (List.range 16).length = 16 ∧ (∀ b ∈ List.range 16, b < 256)
    ∧ Bootstrap.bootstrap_decrypt
        (Bootstrap.bootstrap_encrypt (List.range 16) "true" "vault-key") "vault-key"
      = pyJsonLoads "true" :=
  ⟨by decide, by decide,
    c1_bootstrap_roundtrip_parses_plaintext (List.range 16) "true" "vault-key"
      (by decide) (by decide)⟩

/-- C1 counterexample: with the plaintext `hello` (a perfectly valid Python
string, but not valid JSON), decrypting the encryption raises
`json.JSONDecodeError` instead of returning the original plaintext, because
`bootstrap_decrypt` ends in `json.loads`; so
`bootstrap_decrypt(bootstrap_encrypt(plaintext, key), key) == plaintext` fails
at this input. -/
theorem c1_bootstrap_roundtrip_counterexample :
    Bootstrap.bootstrap_decrypt
        (Bootstrap.bootstrap_encrypt (List.range 16) "hello" "vault-key") "vault-key"
      = POut.raise (PyErr.jsonDecodeError "Expecting value") := by
  rw [bootstrap_decrypt_bootstrap_encrypt (List.range 16) "hello" "vault-key"
    (by decide) (by decide)]
  rfl

/-- C5.  Structure of the bootstrap cipher pair: (a) the derived cipher key is
32 bytes long, agrees with the UTF-8 encoding of the crypto key on its first
`min |utf8(key)| 32` bytes, and is zero beyond them; (b) hex-decoding the
output of `bootstrap_encrypt` yields exactly the 16-byte IV followed by the
CFB ciphertext, whose length equals that of the UTF-8 plaintext; (c) on any
hex-encoded byte string, `bootstrap_decrypt` splits at byte offset 16 into IV
and ciphertext, decrypts with the same derived key, UTF-8 decodes, and parses
the text with `json.loads`.  The fresh random 16-byte IV of the source
(`os.urandom(16)`) is the explicit `iv` argument of the embedding. -/
theorem c5_bootstrap_cipher_structure (iv : List Nat) (text crypto_key : String)
    (hiv : iv.length = 16) (hivb : ∀ b ∈ iv, b < 256) :
    (Bootstrap.cipherKey crypto_key).length = 32
    ∧ (∀ i, i < min (utf8Encode crypto_key).length 32 →
        (Bootstrap.cipherKey crypto_key).getD i 0 = (utf8Encode crypto_key).getD i 0)
    ∧ (∀ i, min (utf8Encode crypto_key).length 32 ≤ i → i < 32 →
        (Bootstrap.cipherKey crypto_key).getD i 0 = 0)
    ∧ bytesFromhex (Bootstrap.bootstrap_encrypt iv text crypto_key)
        = some (iv ++ cfbEncrypt (aes256EncryptBlock (Bootstrap.cipherKey crypto_key)) iv
            (utf8Encode text))
    ∧ (cfbEncrypt (aes256EncryptBlock (Bootstrap.cipherKey crypto_key)) iv
        (utf8Encode text)).length = (utf8Encode text).length
    ∧ (∀ buf : List Nat, (∀ b ∈ buf, b < 256) →
        Bootstrap.bootstrap_decrypt (bytesHex buf) crypto_key
          = match utf8Decode (cfbDecrypt (aes256EncryptBlock (Bootstrap.cipherKey crypto_key))
                (buf.take 16) (buf.drop 16)) with
            | none => POut.raise (.unicodeDecodeError "invalid utf-8 in decrypted data")
            | some t => pyJsonLoads t) := by
  have hE := blockE_cipherKey crypto_key
  have hct := cfbEncrypt_wf _ hE (utf8Encode text) iv hiv hivb (utf8Encode_lt text)
  have hklen : ((utf8Encode crypto_key).take 32).length
      = min (utf8Encode crypto_key).length 32 := by
    rw [List.length_take]
    omega
  refine ⟨cipherKey_length crypto_key, ?_, ?_, ?_, hct.1, ?_⟩
  · intro i hi
    rw [Bootstrap.cipherKey]
    rw [List.getD_append _ _ 0 i (by omega)]
    rw [List.getD_eq_getElem?_getD, List.getD_eq_getElem?_getD, List.getElem?_take,
      if_pos (by omega)]
  · intro i hi1 hi2
    rw [Bootstrap.cipherKey]
    rw [List.getD_append_right _ _ 0 i (by omega)]
    exact getD_replicate_zero _ _
  · rw [Bootstrap.bootstrap_encrypt]
    refine bytesFromhex_bytesHex _ ?_
    intro b hb
    rw [List.mem_append] at hb
    rcases hb with hb | hb
    · exact hivb b hb
    · exact hct.2 b hb
  · intro buf hbuf
    rw [Bootstrap.bootstrap_decrypt, bytesFromhex_bytesHex _ hbuf]

/-- C5 witness: the cipher structure at a concrete IV, plaintext and key. -/
theorem c5_bootstrap_cipher_structure_witness :
    (List.range 16).length = 16 ∧ (∀ b ∈ List.range 16, b < 256)
    ∧ bytesFromhex (Bootstrap.bootstrap_encrypt (List.range 16) "\x7b\x7d" "k1")
        = some (List.range 16 ++ cfbEncrypt (aes256EncryptBlock (Bootstrap.cipherKey "k1"))
            (List.range 16) (utf8Encode "\x7b\x7d")) :=
  ⟨by decide, by decide,
    (c5_bootstrap_cipher_structure (List.range 16) "\x7b\x7d" "k1" (by decide)
      (by decide)).2.2.2.1⟩

theorem responseOk_eq_false {s : Nat} (h1 : 400 ≤ s) (h2 : s < 600) :
    responseOk s = false := by
  simp [responseOk, h1, h2]

/-- C4.  `Messages.send` splits the dotted topic at the dots into the channel
ID (the first segment) and the subtopic (the remaining segments joined by
`/`), and issues exactly one POST to `m/{domain}/c/{channel}/{subtopic}`
under the HTTP adapter base URL, with the client secret in an
`Authorization: Client {secret}` header and the raw message as the body. -/
theorem c4_send_splits_topic_and_posts (st : MessagesSt) (domain_id topic msg secret : String)
    (t : Transport) :
    (Messages.send st domain_id topic msg secret t).reqs
      = [{ method := "POST",
           url := st.http_adapter_url ++ "/m/" ++ domain_id ++ "/c/"
             ++ (topic.splitOn ".").headD "" ++ "/"
             ++ String.intercalate "/" (topic.splitOn ".").tail,
           headers := [("Content-Type", st.content_type),
             ("Authorization", "Client " ++ secret)],
           body := some msg,
           timeout := 30 }] := by
  simp only [Messages.send, urljoin, String.append_assoc]
  rfl

/-- C2 (amended).  For every embedded operation and response whose status is
in the `raise_for_status` range 400..599 (requests' `response.ok` is false
exactly there, so 1xx/2xx/3xx responses are treated as success) and whose
JSON body is an object, the operation raises the uniform error whose status
is the response's status and whose message is the body's `message` field;
operations differ only in whether they forward the body's `error` field as
the detail. -/
theorem c2_non_ok_raises_uniform_error :
    (∀ (st : ClientsSt) (client : Json) (d tok : String) (s : Nat)
        (kvs : List (String × Json)), 400 ≤ s → s < 600 →
        (Clients.create_client st client d tok
            (fun _ => .ok { status := s, body := .obj kvs })).out
          = .raise (.sdk (Errors.handle_error (lookupField kvs "message") s none)))
    ∧ (∀ (st : MessagesSt) (d topic msg secret : String) (s : Nat)
        (kvs : List (String × Json)), 400 ≤ s → s < 600 →
        (Messages.send st d topic msg secret
            (fun _ => .ok { status := s, body := .obj kvs })).out
          = .raise (.sdk (Errors.handle_error (lookupField kvs "message") s
              (lookupField kvs "error"))))
    ∧ (∀ (st : BootstrapSt) (cfg : BootstrapConfig) (d tok : String) (s : Nat)
        (kvs : List (String × Json)), 400 ≤ s → s < 600 →
        (Bootstrap.add_bootstrap st cfg d tok
            (fun _ => .ok { status := s, body := .obj kvs })).out
          = .raise (.sdk (Errors.handle_error (lookupField kvs "message") s
              (lookupField kvs "error"))))
    ∧ (∀ (url endpoint eid rn tok : String) (oa om : Option (List String)) (s : Nat)
        (kvs : List (String × Json)), 400 ≤ s → s < 600 →
        (Roles.create_role url endpoint eid rn tok oa om
            (fun _ => .ok { status := s, body := .obj kvs })).2
          = .raise (.sdk (Errors.handle_error (lookupField kvs "message") s none)))
    ∧ (∀ (st : HealthSt) (service u : String) (s : Nat) (kvs : List (String × Json)),
        Health.serviceUrl st service = some u → 400 ≤ s → s < 600 →
        (Health.health st service (fun _ => .ok { status := s, body := .obj kvs })).out
          = .raise (.sdk (Errors.handle_error (lookupField kvs "message") s none))) := by
  refine ⟨?_, ?_, ?_, ?_, ?_⟩
  · intro st client d tok s kvs h1 h2
    simp only [Clients.create_client, responseOk_eq_false h1 h2, Bool.false_eq_true,
      if_false, pyGet]
  · intro st d topic msg secret s kvs h1 h2
    simp only [Messages.send, responseOk_eq_false h1 h2, Bool.false_eq_true,
      if_false, pyGet]
  · intro st cfg d tok s kvs h1 h2
    simp only [Bootstrap.add_bootstrap, responseOk_eq_false h1 h2, Bool.false_eq_true,
      if_false, pyGet]
  · intro url endpoint eid rn tok oa om s kvs h1 h2
    simp only [Roles.create_role, responseOk_eq_false h1 h2, Bool.false_eq_true,
      if_false, pyGet]
  · intro st service u s kvs hu h1 h2
    simp only [Health.health, hu, responseOk_eq_false h1 h2, Bool.false_eq_true,
      if_false, pyGet]

/-- C2 witness: `create_client` against a 404 response with a `message`
field raises the uniform error carrying status 404 and that message. -/
theorem c2_non_ok_raises_uniform_error_witness :
    400 ≤ 404 ∧ 404 < 600
    ∧ (Clients.create_client (Clients.init "http://clients") (.obj []) "dom" "tok"
        (fun _ => .ok ⟨404, .obj [("message", Json.str "entity not found")]⟩)).out
      = .raise (.sdk (Errors.handle_error
          (lookupField [("message", Json.str "entity not found")] "message") 404 none)) :=
  ⟨by decide, by decide,
    c2_non_ok_raises_uniform_error.1 (Clients.init "http://clients") (.obj []) "dom" "tok"
      404 [("message", Json.str "entity not found")] (by decide) (by decide)⟩

/-- C2 counterexample: a 304 Not Modified response is not in the 2xx range,
yet `create_client` does not raise: requests' `response.ok` is true for every
status below 400, so the operation treats the response as success and returns
the parsed (empty) client record. -/
theorem c2_304_response_not_raised :
    (Clients.create_client (Clients.init "http://clients") (.obj []) "dom" "tok" t304).out
      = POut.ok [] := by
  rfl

/-- C6.  When the transport layer raises (DNS failure, timeout, connection
refused — a `requests.RequestException`), every embedded operation re-raises
that same exception value unchanged: the outcome is the identical transport
exception, never the SDK's uniform error type. -/
theorem c6_transport_exceptions_propagate :
    (∀ (st : ClientsSt) (client : Json) (d tok : String) (e : TransportExn),
        (Clients.create_client st client d tok (fun _ => .exn e)).out
          = .raise (.transport e))
    ∧ (∀ (st : MessagesSt) (d topic msg secret : String) (e : TransportExn),
        (Messages.send st d topic msg secret (fun _ => .exn e)).out
          = .raise (.transport e))
    ∧ (∀ (st : BootstrapSt) (cfg : BootstrapConfig) (d tok : String) (e : TransportExn),
        (Bootstrap.add_bootstrap st cfg d tok (fun _ => .exn e)).out
          = .raise (.transport e))
    ∧ (∀ (url endpoint eid rn tok : String) (oa om : Option (List String))
        (e : TransportExn),
        (Roles.create_role url endpoint eid rn tok oa om (fun _ => .exn e)).2
          = .raise (.transport e))
    ∧ (∀ (url endpoint eid rid tok : String) (e : TransportExn),
        (Roles.view_role url endpoint eid rid tok (fun _ => .exn e)).2
          = .raise (.transport e)) := by
  refine ⟨?_, ?_, ?_, ?_, ?_⟩ <;> intros <;> rfl

/-- C7 (amended).  Every embedded role operation of the Clients, Channels and
Groups resource clients delegates to the corresponding generic `Roles` helper
applied to the owning client's base URL, the path prefix
`{domain_id}/{entity_endpoint}`, and the given entity ID; the Domains client
also delegates to the same helper, but with the path prefix equal to its
`domains_endpoint` alone (`domains`), the domain itself being the entity. -/
theorem c7_role_operations_delegate :
    (∀ (st : ClientsSt) (cid rn d tok : String) (oa om : Option (List String))
        (t : Transport),
        ((Clients.create_client_role st cid rn d tok oa om t).reqs,
          (Clients.create_client_role st cid rn d tok oa om t).out)
          = Roles.create_role st.clients_url (d ++ "/" ++ st.clients_endpoint)
              cid rn tok oa om t)
    ∧ (∀ (st : ClientsSt) (cid d rid tok : String) (t : Transport),
        ((Clients.view_client_role st cid d rid tok t).reqs,
          (Clients.view_client_role st cid d rid tok t).out)
          = Roles.view_role st.clients_url (d ++ "/" ++ st.clients_endpoint)
              cid rid tok t)
    ∧ (∀ (st : ClientsSt) (cid d rid tok : String) (t : Transport),
        ((Clients.delete_client_role st cid d rid tok t).reqs,
          (Clients.delete_client_role st cid d rid tok t).out)
          = Roles.delete_role st.clients_url (d ++ "/" ++ st.clients_endpoint)
              cid rid tok t)
    ∧ (∀ (st : ClientsSt) (d tok : String) (t : Transport),
        ((Clients.list_client_actions st d tok t).reqs,
          (Clients.list_client_actions st d tok t).out)
          = Roles.list_available_actions st.clients_url (d ++ "/" ++ st.clients_endpoint)
              tok t)
    ∧ (∀ (st : ChannelsSt) (cid rn d tok : String) (oa om : Option (List String))
        (t : Transport),
        ((Channels.create_channel_role st cid rn d tok oa om t).reqs,
          (Channels.create_channel_role st cid rn d tok oa om t).out)
          = Roles.create_role st.channels_url (d ++ "/" ++ st.channels_endpoint)
              cid rn tok oa om t)
    ∧ (∀ (st : GroupsSt) (gid rn d tok : String) (oa om : Option (List String))
        (t : Transport),
        ((Groups.create_group_role st gid rn d tok oa om t).reqs,
          (Groups.create_group_role st gid rn d tok oa om t).out)
          = Roles.create_role st.groups_url (d ++ "/" ++ st.groups_endpoint)
              gid rn tok oa om t)
    ∧ (∀ (st : DomainsSt) (d rn tok : String) (oa om : Option (List String))
        (t : Transport),
        ((Domains.create_domain_role st d rn tok oa om t).reqs,
          (Domains.create_domain_role st d rn tok oa om t).out)
          = Roles.create_role st.domains_url st.domains_endpoint d rn tok oa om t) := by
  refine ⟨?_, ?_, ?_, ?_, ?_, ?_, ?_⟩ <;> intros <;> rfl

/-- C7 counterexample: for the Domains client the claim's prefix
`{domain_id}/{entity_endpoint}` is wrong — `create_domain_role` posts to
`{base}/domains/{domain_id}/roles`, while the helper applied to the prefix
`{domain_id}/domains` would post to `{base}/{domain_id}/domains/{domain_id}/roles`;
the issued request URLs differ at this concrete input. -/
theorem c7_domains_prefix_counterexample :
    (((Domains.create_domain_role (Domains.init "http://domains") "d1" "admin" "tok"
          none none tNet).reqs.map (fun r => r.url))
      == ((Roles.create_role (Domains.init "http://domains").domains_url
          ("d1" ++ "/" ++ (Domains.init "http://domains").domains_endpoint)
          "d1" "admin" "tok" none none tNet).1.map (fun r => r.url))) = false := by
  rfl

/-- C8 (amended).  Every embedded SDK operation issues at most one HTTP
request per invocation — exactly one on the request path, zero when a
pre-request check raises — and every request it issues carries the fixed
30-second timeout; no operation retries or issues additional attempts. -/
theorem c8_single_request_fixed_timeout :
    (∀ (st : ClientsSt) (client : Json) (d tok : String) (t : Transport),
        (Clients.create_client st client d tok t).reqs.length ≤ 1
        ∧ ∀ r ∈ (Clients.create_client st client d tok t).reqs, r.timeout = 30)
    ∧ (∀ (st : ClientsSt) (cid rn d tok : String) (oa om : Option (List String))
        (t : Transport),
        (Clients.create_client_role st cid rn d tok oa om t).reqs.length ≤ 1
        ∧ ∀ r ∈ (Clients.create_client_role st cid rn d tok oa om t).reqs, r.timeout = 30)
    ∧ (∀ (st : MessagesSt) (d topic msg secret : String) (t : Transport),
        (Messages.send st d topic msg secret t).reqs.length ≤ 1
        ∧ ∀ r ∈ (Messages.send st d topic msg secret t).reqs, r.timeout = 30)
    ∧ (∀ (st : BootstrapSt) (cfg : BootstrapConfig) (d tok : String) (t : Transport),
        (Bootstrap.add_bootstrap st cfg d tok t).reqs.length ≤ 1
        ∧ ∀ r ∈ (Bootstrap.add_bootstrap st cfg d tok t).reqs, r.timeout = 30)
    ∧ (∀ (st : HealthSt) (service : String) (t : Transport),
        (Health.health st service t).reqs.length ≤ 1
        ∧ ∀ r ∈ (Health.health st service t).reqs, r.timeout = 30)
    ∧ (∀ (st : UsersSt) (pm : PageMetadata) (tok : String) (t : Transport),
        (Users.users st pm tok t).reqs.length ≤ 1
        ∧ ∀ r ∈ (Users.users st pm tok t).reqs, r.timeout = 30)
    ∧ (∀ (url endpoint eid rn tok : String) (oa om : Option (List String))
        (t : Transport),
        (Roles.create_role url endpoint eid rn tok oa om t).1.length ≤ 1
        ∧ ∀ r ∈ (Roles.create_role url endpoint eid rn tok oa om t).1, r.timeout = 30)
    ∧ (∀ (url endpoint tok : String) (t : Transport),
        (Roles.list_available_actions url endpoint tok t).1.length ≤ 1
        ∧ ∀ r ∈ (Roles.list_available_actions url endpoint tok t).1, r.timeout = 30)
    ∧ (∀ (url endpoint eid rid tok : String) (t : Transport),
        (Roles.view_role url endpoint eid rid tok t).1.length ≤ 1
        ∧ ∀ r ∈ (Roles.view_role url endpoint eid rid tok t).1, r.timeout = 30)
    ∧ (∀ (url endpoint eid rid tok : String) (t : Transport),
        (Roles.delete_role url endpoint eid rid tok t).1.length ≤ 1
        ∧ ∀ r ∈ (Roles.delete_role url endpoint eid rid tok t).1, r.timeout = 30) := by
  refine ⟨?_, ?_, ?_, ?_, ?_, ?_, ?_, ?_, ?_, ?_⟩
  · intro st client d tok t
    exact ⟨by simp [Clients.create_client], by simp [Clients.create_client]⟩
  · intro st cid rn d tok oa om t
    exact ⟨by simp [Clients.create_client_role, Roles.create_role],
      by simp [Clients.create_client_role, Roles.create_role]⟩
  · intro st d topic msg secret t
    exact ⟨by simp [Messages.send], by simp [Messages.send]⟩
  · intro st cfg d tok t
    exact ⟨by simp [Bootstrap.add_bootstrap], by simp [Bootstrap.add_bootstrap]⟩
  · intro st service t
    cases h : Health.serviceUrl st service with
    | none => exact ⟨by simp [Health.health, h], by simp [Health.health, h]⟩
    | some u => exact ⟨by simp [Health.health, h], by simp [Health.health, h]⟩
  · intro st pm tok t
    exact ⟨by simp [Users.users], by simp [Users.users]⟩
  · intro url endpoint eid rn tok oa om t
    exact ⟨by simp [Roles.create_role], by simp [Roles.create_role]⟩
  · intro url endpoint tok t
    exact ⟨by simp [Roles.list_available_actions], by simp [Roles.list_available_actions]⟩
  · intro url endpoint eid rid tok t
    exact ⟨by simp [Roles.view_role], by simp [Roles.view_role]⟩
  · intro url endpoint eid rid tok t
    exact ⟨by simp [Roles.delete_role], by simp [Roles.delete_role]⟩

/-- C8 counterexample: `Health.health` on an unconfigured service raises
`ValueError` and issues zero HTTP requests, so an invocation does not always
issue exactly one request. -/
theorem c8_health_zero_requests :
    (Health.health
        (Health.init none none none none none none none none none none none none)
        "users" tNet).reqs = []
    ∧ (Health.health
        (Health.init none none none none none none none none none none none none)
        "users" tNet).out
      = POut.raise (.valueError
          "Service \x27users\x27 is not configured or not supported") := by
  exact ⟨rfl, rfl⟩

/-- C9.  Every embedded operation returns its client object's state unchanged
for every input and every transport behaviour, whether the call succeeds or
raises: the configuration fields set at construction are never mutated and no
per-call state is stored on the client. -/
theorem c9_client_state_unchanged :
    (∀ (st : ClientsSt) (client : Json) (d tok : String) (t : Transport),
        (Clients.create_client st client d tok t).post = st)
    ∧ (∀ (st : ClientsSt) (cid rn d tok : String) (oa om : Option (List String))
        (t : Transport), (Clients.create_client_role st cid rn d tok oa om t).post = st)
    ∧ (∀ (st : ClientsSt) (cid d rid tok : String) (t : Transport),
        (Clients.view_client_role st cid d rid tok t).post = st)
    ∧ (∀ (st : ClientsSt) (cid d rid tok : String) (t : Transport),
        (Clients.delete_client_role st cid d rid tok t).post = st)
    ∧ (∀ (st : ClientsSt) (d tok : String) (t : Transport),
        (Clients.list_client_actions st d tok t).post = st)
    ∧ (∀ (st : MessagesSt) (d topic msg secret : String) (t : Transport),
        (Messages.send st d topic msg secret t).post = st)
    ∧ (∀ (st : BootstrapSt) (cfg : BootstrapConfig) (d tok : String) (t : Transport),
        (Bootstrap.add_bootstrap st cfg d tok t).post = st)
    ∧ (∀ (st : HealthSt) (service : String) (t : Transport),
        (Health.health st service t).post = st)
    ∧ (∀ (st : UsersSt) (pm : PageMetadata) (tok : String) (t : Transport),
        (Users.users st pm tok t).post = st)
    ∧ (∀ (st : ChannelsSt) (cid rn d tok : String) (oa om : Option (List String))
        (t : Transport), (Channels.create_channel_role st cid rn d tok oa om t).post = st)
    ∧ (∀ (st : GroupsSt) (gid rn d tok : String) (oa om : Option (List String))
        (t : Transport), (Groups.create_group_role st gid rn d tok oa om t).post = st)
    ∧ (∀ (st : DomainsSt) (d rn tok : String) (oa om : Option (List String))
        (t : Transport), (Domains.create_domain_role st d rn tok oa om t).post = st) := by
  refine ⟨fun _ _ _ _ _ => rfl, fun _ _ _ _ _ _ _ _ => rfl, fun _ _ _ _ _ _ => rfl,
    fun _ _ _ _ _ _ => rfl, fun _ _ _ _ => rfl, fun _ _ _ _ _ _ => rfl,
    fun _ _ _ _ _ => rfl, ?_, fun _ _ _ _ => rfl, fun _ _ _ _ _ _ _ _ => rfl,
    fun _ _ _ _ _ _ _ _ => rfl, fun _ _ _ _ _ _ _ => rfl⟩
  intro st service t
  cases h : Health.serviceUrl st service <;> simp [Health.health, h]

/-- C10.  Every embedded `Roles` helper operation, on a response in the
raising range 400..599 with a JSON object body, raises the uniform error with
the detail field `None`: the helper passes only the body's `message` and the
status code to `Errors.handle_error` and never a third detail argument. -/
theorem c10_roles_errors_have_no_detail :
    (∀ (url endpoint tok : String) (s : Nat) (kvs : List (String × Json)),
        400 ≤ s → s < 600 →
        (Roles.list_available_actions url endpoint tok
            (fun _ => .ok { status := s, body := .obj kvs })).2
          = .raise (.sdk ⟨s, lookupField kvs "message", none⟩))
    ∧ (∀ (url endpoint eid rn tok : String) (oa om : Option (List String)) (s : Nat)
        (kvs : List (String × Json)), 400 ≤ s → s < 600 →
        (Roles.create_role url endpoint eid rn tok oa om
            (fun _ => .ok { status := s, body := .obj kvs })).2
          = .raise (.sdk ⟨s, lookupField kvs "message", none⟩))
    ∧ (∀ (url endpoint eid rid tok : String) (s : Nat) (kvs : List (String × Json)),
        400 ≤ s → s < 600 →
        (Roles.view_role url endpoint eid rid tok
            (fun _ => .ok { status := s, body := .obj kvs })).2
          = .raise (.sdk ⟨s, lookupField kvs "message", none⟩))
    ∧ (∀ (url endpoint eid rid tok : String) (s : Nat) (kvs : List (String × Json)),
        400 ≤ s → s < 600 →
        (Roles.delete_role url endpoint eid rid tok
            (fun _ => .ok { status := s, body := .obj kvs })).2
          = .raise (.sdk ⟨s, lookupField kvs "message", none⟩)) := by
  refine ⟨?_, ?_, ?_, ?_⟩
  · intro url endpoint tok s kvs h1 h2
    simp only [Roles.list_available_actions, responseOk_eq_false h1 h2, Bool.false_eq_true,
      if_false, pyGet, Errors.handle_error]
  · intro url endpoint eid rn tok oa om s kvs h1 h2
    simp only [Roles.create_role, responseOk_eq_false h1 h2, Bool.false_eq_true,
      if_false, pyGet, Errors.handle_error]
  · intro url endpoint eid rid tok s kvs h1 h2
    simp only [Roles.view_role, responseOk_eq_false h1 h2, Bool.false_eq_true,
      if_false, pyGet, Errors.handle_error]
  · intro url endpoint eid rid tok s kvs h1 h2
    simp only [Roles.delete_role, responseOk_eq_false h1 h2, Bool.false_eq_true,
      if_false, pyGet, Errors.handle_error]

/-- C10 witness: `Roles.view_role` against a 403 response raises the uniform
error with detail `None`. -/
theorem c10_roles_errors_have_no_detail_witness :
    400 ≤ 403 ∧ 403 < 600
    ∧ (Roles.view_role "http://clients" "d1/clients" "c1" "r1" "tok"
        (fun _ => .ok ⟨403, .obj [("message", Json.str "forbidden")]⟩)).2
      = .raise (.sdk ⟨403, lookupField [("message", Json.str "forbidden")] "message", none⟩) :=
  ⟨by decide, by decide,
    c10_roles_errors_have_no_detail.2.2.1 "http://clients" "d1/clients" "c1" "r1" "tok"
      403 [("message", Json.str "forbidden")] (by decide) (by decide)⟩

/-- C3.  Evaluation of `Users.users` at its failing input: called with its
declared `PageMetadata` parameter (here the all-defaults instance) it raises
`AttributeError` from `query_params.items()` — `PageMetadata` is a plain
dataclass with no `items` method — before issuing any HTTP request, so no
query string is ever produced, contrary to the claimed serialization of
non-null fields. -/
theorem c3_users_items_attribute_error :
    (Users.users (Users.init "http://users") {} "tok" tNet).reqs = []
    ∧ (Users.users (Users.init "http://users") {} "tok" tNet).out
      = POut.raise (.attributeError "PageMetadata object has no attribute items") :=
  ⟨rfl, rfl⟩
